import Mathlib

/-!
# A verification development for the pygml GML/GeoJSON converter

This file gives a shallow embedding, in Lean 4, of the core of the pygml
library (coordinate text grammar, GML 3.2 / 3.3-CE parsers and encoders,
and the GeoRSS adapter), and proves or refutes a fixed list of claims
about it.

Modelling conventions:

* Python `float` values are modelled by `PyNum`, a canonical finite
  decimal `m / 10 ^ e` (mantissa/scale, trailing zeros stripped).  The
  library never performs arithmetic on coordinate values: it only parses
  them from decimal text, regroups, swaps and reprints them, so finite
  decimals — which are exactly the values `repr`/`str` of a float can
  produce, and which round-trip through `float()` — are a faithful
  carrier.  (Binary-float rounding and scientific notation are outside
  the scope of every claim.)
* Python exceptions (`ValueError`, `KeyError`, `TypeError`, ...) are
  modelled with `Except String`; the message text preserves the source
  message where one exists.
* `lxml` elements are modelled by `Xml` (namespace, local tag name,
  attributes, children, text).  Namespace maps only affect serialized
  prefixes and are not modelled.
* Python `set`-based SRS deduplication in `determine_srs` is modelled by
  value: the error is raised iff two distinct non-`None` values occur
  (set iteration order only affects the message's listing order).
* The modules `pygml/axisorder.py` and `pygml/pre_v32.py` are not part
  of the sources; the definitions derived from them are modelled from
  the specification (see their doc comments).
-/

/-! ## Canonical decimal numbers (model of Python float values) -/

/-- A finite decimal number `m / 10 ^ e`.  Values are kept canonical
(`e = 0` or `m` not divisible by 10) by smart constructors. -/
structure PyNum where
  m : ℤ
  e : ℕ
  deriving DecidableEq, Repr

/-- Canonicalize a mantissa/scale pair by stripping trailing zeros. -/
def canonNum : ℤ → ℕ → PyNum
  | m, 0 => ⟨m, 0⟩
  | m, (e + 1) => if m % 10 = 0 then canonNum (m / 10) e else ⟨m, e + 1⟩

/-- Shorthand for an integer-valued number. -/
def pn (m : ℤ) : PyNum := ⟨m, 0⟩

/-- Shorthand for a decimal `m / 10 ^ e`, canonicalized. -/
def pd (m : ℤ) (e : ℕ) : PyNum := canonNum m e

/-! ## Character and string helpers -/

/-- The whitespace test used by Python's `str.split()` (restricted to the
ASCII whitespace characters that can occur in the modelled documents). -/
def isWs (c : Char) : Bool :=
  c = ' ' || c = '\t' || c = '\n' || c = '\r'

/-- `str.split()` with no separator: split on whitespace runs, dropping
empty pieces.  `cur` accumulates the current token. -/
def pySplitAcc (cur : List Char) : List Char → List (List Char)
  | [] => if cur = [] then [] else [cur]
  | c :: cs =>
    if isWs c then
      (if cur = [] then pySplitAcc [] cs else cur :: pySplitAcc [] cs)
    else
      pySplitAcc (cur ++ [c]) cs

def pySplit (l : List Char) : List (List Char) := pySplitAcc [] l

/-- `' '.join(...)` on token lists. -/
def sjoin : List (List Char) → List Char
  | [] => []
  | [t] => t
  | t :: u :: ts => t ++ ' ' :: sjoin (u :: ts)

/-- Strip leading and trailing whitespace (`str.strip()` / what
`float()` tolerates around a literal). -/
def stripWs (l : List Char) : List Char :=
  ((l.dropWhile isWs).reverse.dropWhile isWs).reverse

def digitsVal (l : List Char) : ℕ :=
  l.foldl (fun a c => a * 10 + (c.toNat - 48)) 0

/-- Decimal digits of `n`, most significant first (`f` is fuel, `n + 1`
is always sufficient). -/
def natDigitsF : ℕ → ℕ → List Char
  | 0, _ => []
  | f + 1, n =>
    if n < 10 then [Char.ofNat (48 + n)]
    else natDigitsF f (n / 10) ++ [Char.ofNat (48 + n % 10)]

def natDigits (n : ℕ) : List Char := natDigitsF (n + 1) n

def natStr (n : ℕ) : String := ⟨natDigits n⟩

/-! ## Python `float()` and `str(float)` -/

/-- Parse an (optionally signed) decimal literal with optional fraction
and exponent, as accepted by Python's `float()` builtin, into a
canonical decimal.  (Underscored literals, `inf` and `nan` are not
modelled and yield the conversion error.) -/
def pyFloat (s : List Char) : Except String PyNum :=
  let t := stripWs s
  let (sgn, t₁) : ℤ × List Char :=
    match t with
    | '+' :: r => (1, r)
    | '-' :: r => (-1, r)
    | r => (1, r)
  let (ids, t₂) := t₁.span Char.isDigit
  let (fds, t₃) :=
    match t₂ with
    | '.' :: r => r.span Char.isDigit
    | r => ([], r)
  if ids = [] ∧ fds = [] then
    .error ("could not convert string to float: " ++ String.mk s)
  else
    let mant : ℤ := sgn * (digitsVal (ids ++ fds) : ℤ)
    match t₃ with
    | [] => .ok (canonNum mant fds.length)
    | c :: r =>
      if c = 'e' ∨ c = 'E' then
        let (esgn, r₁) : Bool × List Char :=
          match r with
          | '+' :: r' => (false, r')
          | '-' :: r' => (true, r')
          | r' => (false, r')
        let (eds, r₂) := r₁.span Char.isDigit
        if eds = [] ∨ r₂ ≠ [] then
          .error ("could not convert string to float: " ++ String.mk s)
        else if esgn then
          .ok (canonNum mant (fds.length + digitsVal eds))
        else
          .ok (canonNum (mant * (10 : ℤ) ^ digitsVal eds) fds.length)
      else
        .error ("could not convert string to float: " ++ String.mk s)

/-- `str()` of a float value: plain decimal rendering, with a trailing
`.0` for integral values, mirroring CPython's `repr` on the decimal
values in scope (scientific-notation thresholds are not modelled). -/
def pyStr (q : PyNum) : List Char :=
  let sign : List Char := if q.m < 0 then ['-'] else []
  let a : ℕ := q.m.natAbs
  if q.e = 0 then
    sign ++ natDigits a ++ ['.', '0']
  else
    let ds := natDigits (a % 10 ^ q.e)
    sign ++ natDigits (a / 10 ^ q.e) ++ '.' ::
      (List.replicate (q.e - ds.length) '0' ++ ds)

/-- A value whose printed form is a clean token that converts back to
itself: nonempty, whitespace-free, and `float(str(x)) == x`.  This is
the numeric-round-trip property the specification stipulates for the
encoder's numeric formatting. -/
def goodNum (q : PyNum) : Bool :=
  decide (pyStr q ≠ []) &&
  (pyStr q).all (fun c => !isWs c) &&
  (match pyFloat (pyStr q) with
   | .ok r => r = q
   | .error _ => false)

/-! ## Error-propagating list traversal (Python comprehension) -/

def mapExcept (f : α → Except String β) : List α → Except String (List β)
  | [] => .ok []
  | x :: xs => do
    let y ← f x
    let ys ← mapExcept f xs
    .ok (y :: ys)

/-- Grouping `[raw[i:i+d] for i in range(0, len(raw), d)]`; the fuel
`f` (the list length suffices for `d > 0`) drives the recursion. -/
def chunkF (d : ℕ) : ℕ → List α → List (List α)
  | _, [] => []
  | 0, _ :: _ => []
  | f + 1, x :: xs => ((x :: xs).take d) :: chunkF d f ((x :: xs).drop d)

def chunk (d : ℕ) (l : List α) : List (List α) := chunkF d l.length l

/-! ## `pygml/basics.py`: the coordinate text grammar -/

/-- A coordinate is a tuple of numeric components (`types.Coordinate`). -/
abbrev Coordinate := List PyNum

abbrev Coordinates := List Coordinate

/-- Split `l` on the exact (nonempty) separator substring `sep`, keeping
empty pieces — Python's `str.split(sep)`.  `f` is fuel (`l.length`
suffices). -/
def splitSubF (sep : List Char) : ℕ → List Char → List (List Char)
  | 0, l => [l]
  | f + 1, l =>
    if sep ≠ [] ∧ sep.isPrefixOf l then
      [] :: splitSubF sep f (l.drop sep.length)
    else
      match l with
      | [] => [[]]
      | c :: cs =>
        match splitSubF sep f cs with
        | [] => [[c]]
        | p :: ps => (c :: p) :: ps

def splitSub (sep l : List Char) : List (List Char) :=
  splitSubF sep (l.length + 1) l

/-- Replace every occurrence of the (nonempty) substring `pat` by `sub`
(`str.replace`).  `f` is fuel. -/
def replaceSubF (pat sub : List Char) : ℕ → List Char → List Char
  | 0, l => l
  | f + 1, l =>
    if pat ≠ [] ∧ pat.isPrefixOf l then
      sub ++ replaceSubF pat sub f (l.drop pat.length)
    else
      match l with
      | [] => []
      | c :: cs => c :: replaceSubF pat sub f cs

def replaceSub (pat sub l : List Char) : List Char :=
  replaceSubF pat sub (l.length + 1) l

/-- `_make_number_parser`: parse a number after substituting a custom
decimal separator by `'.'`. -/
def numberParser (decimal : List Char) (value : List Char) : Except String PyNum :=
  if decimal = ['.'] then pyFloat value
  else pyFloat (replaceSub decimal ['.'] value)

/-- `basics.parse_coordinates`: legacy `gml:coordinates` text with a
configurable coordinate separator `cs`, tuple separator `ts` and decimal
character. -/
def parse_coordinates (value : List Char) (cs : List Char := [','])
    (ts : List Char := [' ']) (decimal : List Char := ['.']) :
    Except String Coordinates :=
  mapExcept
    (fun coordinate =>
      mapExcept (numberParser decimal) (splitSub ts (stripWs coordinate)))
    (splitSub cs (stripWs value))

/-- `basics.parse_poslist`: flat whitespace-separated numbers grouped
into `dimensions`-sized coordinates; `ValueError` when the count is not
divisible (and Python's `ZeroDivisionError` if `dimensions == 0`). -/
def parse_poslist (value : List Char) (dimensions : ℕ := 2) :
    Except String Coordinates := do
  let raw ← mapExcept pyFloat (pySplit value)
  if dimensions = 0 then
    throw "integer division or modulo by zero"
  else if raw.length % dimensions > 0 then
    throw "Invalid dimensionality of pos list"
  else
    pure (chunk dimensions raw)

/-- `basics.parse_pos`: a single whitespace-separated coordinate. -/
def parse_pos (value : List Char) : Except String Coordinate :=
  mapExcept pyFloat (pySplit value)

/-- `basics.swap_coordinate_xy`: `(c[1], c[0], *c[2:])`; `IndexError`
when the tuple has fewer than two components. -/
def swap_coordinate_xy : Coordinate → Except String Coordinate
  | x :: y :: rest => .ok (y :: x :: rest)
  | _ => .error "tuple index out of range"

/-- `basics.swap_coordinates_xy`: elementwise swap. -/
def swap_coordinates_xy (cs : Coordinates) : Except String Coordinates :=
  mapExcept swap_coordinate_xy cs

/-! ## The GeoJSON geometry value (`types.GeomDict`)

A parsed/encoded geometry dict `{'type': ..., 'coordinates'/'geometries':
..., 'crs'?: ..., 'bbox'?: ...}`.  The `crs` member, when present, always
has the shape `{'type': 'name', 'properties': {'name': s}}` in this
library, so it is modelled by the name `s` alone; `bbox` is the
4-tuple attached by the GeoRSS `box` parser. -/

mutual

inductive GeomData : Type where
  | point (c : Coordinate)
  | multiPoint (cs : Coordinates)
  | lineString (cs : Coordinates)
  | multiLineString (css : List Coordinates)
  | polygon (css : List Coordinates)
  | multiPolygon (csss : List (List Coordinates))
  | collection (members : GeomList)

inductive GeomObj : Type where
  | mk (data : GeomData) (crs : Option String) (bbox : Option (List PyNum))

inductive GeomList : Type where
  | nil
  | cons (g : GeomObj) (rest : GeomList)

end

def GeomObj.data : GeomObj → GeomData | .mk d _ _ => d

def GeomObj.crs : GeomObj → Option String | .mk _ c _ => c

def GeomObj.bbox : GeomObj → Option (List PyNum) | .mk _ _ b => b

def GeomList.toList : GeomList → List GeomObj
  | .nil => []
  | .cons g rest => g :: rest.toList

def GeomList.ofList : List GeomObj → GeomList
  | [] => .nil
  | g :: gs => .cons g (GeomList.ofList gs)

/-- A geometry value carrying no `crs` and no `bbox` member. -/
def bare (d : GeomData) : GeomObj := .mk d none none

/-- The same geometry with the default CRS84 descriptor attached (what a
re-parse of an encoded CRS-less geometry produces). -/
def withCrs84 (d : GeomData) : GeomObj :=
  .mk d (some "urn:ogc:def:crs:OGC::CRS84") none

/-! ## The XML element model (`lxml.etree._Element`)

An element is a namespace, a local tag name, an attribute list, the list
of child elements and its text content.  Namespace prefix maps only
affect serialization and are not modelled; attribute lookup is by
first match. -/

inductive Xml : Type where
  | mk (ns tag : String) (attrs : List (String × String))
       (children : List Xml) (text : List Char)

def Xml.ns : Xml → String | .mk n _ _ _ _ => n

def Xml.tag : Xml → String | .mk _ t _ _ _ => t

def Xml.attrs : Xml → List (String × String) | .mk _ _ a _ _ => a

def Xml.children : Xml → List Xml | .mk _ _ _ c _ => c

def Xml.text : Xml → List Char | .mk _ _ _ _ t => t

def lookupStr (k : String) : List (String × String) → Option String
  | [] => none
  | (k', v) :: rest => if k' == k then some v else lookupStr k rest

/-- `element.attrib.get(name)`. -/
def attrGet (k : String) (e : Xml) : Option String := lookupStr k e.attrs

/-- xpath `pfx:tag` on direct children (with `pfx` resolved to `gns`). -/
def childrenNS (gns tag : String) (e : Xml) : List Xml :=
  e.children.filter (fun c => c.ns == gns && c.tag == tag)

/-- xpath `pfx:a/pfx:b`. -/
def path2 (gns a b : String) (e : Xml) : List Xml :=
  ((childrenNS gns a e).map (childrenNS gns b)).flatten

/-- xpath `(pfx:a|pfx:b)/*`: all child elements of the members named `a`
or `b`, in document order. -/
def memberChildren (gns a b : String) (e : Xml) : List Xml :=
  ((e.children.filter
      (fun c => c.ns == gns && (c.tag == a || c.tag == b))).map
    Xml.children).flatten

/-- xpath `(pfx:a|pfx:b)/pfx:t`. -/
def memberChildrenTagged (gns a b t : String) (e : Xml) : List Xml :=
  (memberChildren gns a b e).filter (fun c => c.ns == gns && c.tag == t)

/-! ## `pygml/axisorder.py` (modelled from the spec)

Modelled from the spec: the module `pygml/axisorder.py` is not among the
sources.  Following spec §4.1 (corroborated by `tests/test_axisorder.py`),
`get_crs_code` recognizes six EPSG surface syntaxes plus the literal
CRS84 URN and fails with the unrecognized-format error otherwise, and
`is_crs_yx` looks the code up in a static latitude-first table that
contains (at minimum, and here exactly) EPSG:4326. -/

inductive CrsCode : Type where
  | epsg (n : ℕ)
  | crs84
  deriving DecidableEq, Repr

/-- The EPSG surface syntaxes accepted by `get_crs_code`. -/
def epsgPrefixes : List String :=
  [ "EPSG:",
    "http://www.opengis.net/def/crs/EPSG/0/",
    "http://www.opengis.net/gml/srs/epsg.xml#",
    "urn:EPSG:geographicCRS:",
    "urn:ogc:def:crs:EPSG::",
    "urn:ogc:def:crs:EPSG:" ]

def allDigits (l : List Char) : Bool := decide (l ≠ []) && l.all Char.isDigit

/-- Modelled from the spec: `axisorder.get_crs_code`. -/
def get_crs_code (srs : String) : Except String CrsCode :=
  if srs = "urn:ogc:def:crs:OGC::CRS84" then .ok .crs84
  else
    match epsgPrefixes.find?
        (fun p => p.toList.isPrefixOf srs.toList &&
                  allDigits (srs.toList.drop p.toList.length)) with
    | some p => .ok (.epsg (digitsVal (srs.toList.drop p.toList.length)))
    | none => .error ("Unrecognized SRS format: " ++ srs)

/-- Modelled from the spec: `axisorder.is_crs_yx` — membership of the
normalized code in the static latitude-first table. -/
def is_crs_yx (srs : String) : Except String Bool := do
  let code ← get_crs_code srs
  pure (code = .epsg 4326)

/-! ## `v3_common.py`: SRS resolution and axis-order correction -/

/-- `v3_common.determine_srs` (and its duplicate `v32._determine_srs`):
collect the non-`None` candidates; two or more distinct values raise the
conflict error; otherwise return the single value, or `None`.  (Python's
`set` iteration order only affects the message's listing order.) -/
def determine_srs (srss : List (Option String)) : Except String (Option String) :=
  match srss.filterMap id with
  | [] => .ok none
  | v :: rest =>
    if rest.all (fun w => w == v) then .ok (some v)
    else .error ("Conflicting SRS definitions: " ++
      String.intercalate ", " (v :: rest.filter (fun w => w != v)))

/-- `maybe_swap_coordinates` on the data part of a geometry dict: when
the SRS is latitude-first, swap X/Y throughout; a `GeometryCollection`
has no `'coordinates'` entry, so reaching it raises `KeyError`. -/
def maybe_swap_data (data : GeomData) (srs : String) : Except String GeomData := do
  let yx ← is_crs_yx srs
  if yx then
    match data with
    | .collection _ => throw "KeyError: 'coordinates'"
    | .point c => do
      let c' ← swap_coordinate_xy c
      pure (.point c')
    | .multiPoint cs => do
      let cs' ← swap_coordinates_xy cs
      pure (.multiPoint cs')
    | .lineString cs => do
      let cs' ← swap_coordinates_xy cs
      pure (.lineString cs')
    | .multiLineString css => do
      let css' ← mapExcept swap_coordinates_xy css
      pure (.multiLineString css')
    | .polygon css => do
      let css' ← mapExcept swap_coordinates_xy css
      pure (.polygon css')
    | .multiPolygon csss => do
      let csss' ← mapExcept (mapExcept swap_coordinates_xy) csss
      pure (.multiPolygon csss')
  else
    pure data

/-! ## `v3_common.py`: the per-geometry-type parse handlers

Each handler takes the namespace `gns` that the `gml` prefix of the
engine's namespace map resolves to, and returns the parsed data together
with the resolved SRS of its scope. -/

def NS32 : String := "http://www.opengis.net/gml/3.2"

def NS33 : String := "http://www.opengis.net/gml/3.3/ce"

def NSPRE32 : String := "http://www.opengis.net/gml"

def NSGEORSS : String := "http://www.georss.org/georss"

abbrev ParseResult := GeomData × Option String

/-- `element.attrib.get(k, default)` for the separator attributes. -/
def attrGetD (k : String) (d : List Char) (e : Xml) : List Char :=
  match attrGet k e with
  | some s => s.toList
  | none => d

/-- Python `int()` on an attribute string (digits only; the claims never
exercise signed or malformed dimension attributes). -/
def parsePyNat (s : String) : Except String ℕ :=
  let t := stripWs s.toList
  if allDigits t then .ok (digitsVal t)
  else .error ("invalid literal for int() with base 10: " ++ s)

/-- `v3_common.parse_coord` is always called with a single argument
(`parse_coord(coord_elemss[0])`) although it requires two, so every call
raises `TypeError` before its body runs; the body itself would fail on
its namespace-less xpath anyway.  This constant models the call. -/
def parse_coord_call : Except String Coordinate :=
  .error "parse_coord() missing 1 required positional argument: 'nsmap'"

/-- The final lines of `parse_point`: resolve the element's own
`srsName` against the branch-local one and build the result.  (The
branch bodies below call this in tail position; the sequencing is the
same as the source's fall-through to the final `determine_srs`.) -/
def point_finish (e : Xml) (coords : Coordinate) (srs : Option String) :
    Except String ParseResult := do
  let srs' ← determine_srs [attrGet "srsName" e, srs]
  pure (.point coords, srs')

/-- `v3_common.parse_point`: pick the coordinate source (`pos`, legacy
`coordinates`, `coord`) and its local SRS, then resolve. -/
def parse_point (gns : String) (e : Xml) : Except String ParseResult :=
  match childrenNS gns "pos" e with
  | p :: ps =>
    if !ps.isEmpty then throw "Too many gml:pos elements"
    else do
      let coords ← parse_pos p.text
      point_finish e coords (attrGet "srsName" p)
  | [] =>
    match childrenNS gns "coordinates" e with
    | c :: cs =>
      if !cs.isEmpty then throw "Too many gml:coordinates elements"
      else do
        let parsed ← parse_coordinates c.text (attrGetD "cs" [','] c)
          (attrGetD "ts" [' '] c) (attrGetD "decimal" ['.'] c)
        match parsed with
        | c₀ :: _ => point_finish e c₀ none
        | [] => throw "list index out of range"
    | [] =>
      match childrenNS gns "coord" e with
      | _ :: ds =>
        if !ds.isEmpty then throw "Too many gml:coord elements"
        else do
          let coords ← parse_coord_call
          point_finish e coords none
      | [] => throw "Neither gml:pos nor gml:coordinates found"

/-- Extract the coordinate of a parse result known to be a point
(`point['coordinates']`). -/
def pointCoords : ParseResult → Coordinate
  | (.point c, _) => c
  | _ => []

/-- `v3_common.parse_multi_point`: all child elements of
`pointMember`/`pointMembers` are parsed as points; an empty member list
makes the `zip(*...)` unpacking fail. -/
def parse_multi_point (gns : String) (e : Xml) : Except String ParseResult := do
  match memberChildren gns "pointMember" "pointMembers" e with
  | [] => throw "not enough values to unpack (expected 2, got 0)"
  | m :: ms => do
    let rs ← mapExcept (parse_point gns) (m :: ms)
    let srs ← determine_srs (attrGet "srsName" e :: rs.map (·.2))
    pure (.multiPoint (rs.map pointCoords), srs)

/-- The final lines of `parse_linestring_or_linear_ring`, called in tail
position by each branch. -/
def linestring_finish (e : Xml) (coordinates : Coordinates)
    (srs : Option String) : Except String ParseResult := do
  let srs' ← determine_srs [attrGet "srsName" e, srs]
  pure (.lineString coordinates, srs')

/-- `v3_common.parse_linestring_or_linear_ring`: `posList`, else
one-or-more `pos`, else legacy `coordinates`, else `coord` — in that
priority order. -/
def parse_linestring_or_linear_ring (gns : String) (e : Xml) :
    Except String ParseResult :=
  match childrenNS gns "posList" e with
  | pl :: pls =>
    if !pls.isEmpty then throw "Too many gml:posList elements"
    else do
      let dims ← match attrGet "srsDimension" pl with
        | some s => parsePyNat s
        | none => pure 2
      let coordinates ← parse_poslist pl.text dims
      linestring_finish e coordinates (attrGet "srsName" pl)
  | [] =>
    match childrenNS gns "pos" e with
    | p :: ps => do
      let coordinates ← mapExcept (fun (q : Xml) => parse_pos q.text) (p :: ps)
      let srs ← determine_srs
        (((p :: ps).filterMap (attrGet "srsName")).map some)
      linestring_finish e coordinates srs
    | [] =>
      match childrenNS gns "coordinates" e with
      | c :: cs =>
        if !cs.isEmpty then throw "Too many gml:coordinates elements"
        else do
          let coordinates ← parse_coordinates c.text (attrGetD "cs" [','] c)
            (attrGetD "ts" [' '] c) (attrGetD "decimal" ['.'] c)
          linestring_finish e coordinates none
      | [] =>
        match childrenNS gns "coord" e with
        | _ :: _ => do
          let coordinates ← parse_coord_call
          linestring_finish e [coordinates] none
        | [] => throw "No gml:posList, gml:pos or gml:coordinates found"

/-- Extract the coordinate list of a parse result known to be a line
string (`linestring['coordinates']`). -/
def lineCoords : ParseResult → Coordinates
  | (.lineString cs, _) => cs
  | _ => []

/-- `v3_common.parse_multi_curve`: the xpath
`(gml:curveMember|gml:curveMembers)/gml:LineString` already restricts to
`LineString` members, so the are-not-linestrings guard can never fire;
members of any other type are simply absent from the selection.  An
empty selection makes the `zip(*...)` unpacking fail. -/
def parse_multi_curve (gns : String) (e : Xml) : Except String ParseResult := do
  match memberChildrenTagged gns "curveMember" "curveMembers" "LineString" e with
  | [] => throw "not enough values to unpack (expected 2, got 0)"
  | m :: ms => do
    let rs ← mapExcept (parse_linestring_or_linear_ring gns) (m :: ms)
    let srs ← determine_srs (attrGet "srsName" e :: rs.map (·.2))
    pure (.multiLineString (rs.map lineCoords), srs)

/-- `v3_common.parse_multi_linestring` (registered only by the pre-3.2
dialect): `gml:lineStringMember/gml:LineString` members. -/
def parse_multi_linestring (gns : String) (e : Xml) :
    Except String ParseResult := do
  match path2 gns "lineStringMember" "LineString" e with
  | [] => throw "not enough values to unpack (expected 2, got 0)"
  | m :: ms => do
    let rs ← mapExcept (parse_linestring_or_linear_ring gns) (m :: ms)
    let srs ← determine_srs (attrGet "srsName" e :: rs.map (·.2))
    pure (.multiLineString (rs.map lineCoords), srs)

/-- `v3_common.parse_polygon`: exactly one `exterior/LinearRing`,
zero-or-more `interior/LinearRing` (the zero case is guarded by an
explicit length check in this revision). -/
def parse_polygon (gns : String) (e : Xml) : Except String ParseResult := do
  match path2 gns "exterior" "LinearRing" e with
  | [] => throw "No gml:exterior/gml:LinearRing"
  | ext :: exts =>
    if !exts.isEmpty then throw "Too many gml:exterior/gml:LinearRing elements"
    else do
      let extRes ← parse_linestring_or_linear_ring gns ext
      let interiorElems := path2 gns "interior" "LinearRing" e
      let intRes ← mapExcept (parse_linestring_or_linear_ring gns) interiorElems
      let srs ← determine_srs
        (attrGet "srsName" e :: extRes.2 :: intRes.map (·.2))
      pure (.polygon (lineCoords extRes :: intRes.map lineCoords), srs)

/-- Extract the ring list of a parse result known to be a polygon. -/
def polyCoords : ParseResult → List Coordinates
  | (.polygon css, _) => css
  | _ => []

/-- `v3_common.parse_multi_surface`: like `parse_multi_curve`, the xpath
restricts to `Polygon` members and the guard is dead. -/
def parse_multi_surface (gns : String) (e : Xml) : Except String ParseResult := do
  match memberChildrenTagged gns "surfaceMember" "surfaceMembers" "Polygon" e with
  | [] => throw "not enough values to unpack (expected 2, got 0)"
  | m :: ms => do
    let rs ← mapExcept (parse_polygon gns) (m :: ms)
    let srs ← determine_srs (attrGet "srsName" e :: rs.map (·.2))
    pure (.multiPolygon (rs.map polyCoords), srs)

/-- `v3_common.parse_multi_polygon` (pre-3.2 only):
`gml:polygonMember/gml:Polygon` members. -/
def parse_multi_polygon (gns : String) (e : Xml) : Except String ParseResult := do
  match path2 gns "polygonMember" "Polygon" e with
  | [] => throw "not enough values to unpack (expected 2, got 0)"
  | m :: ms => do
    let rs ← mapExcept (parse_polygon gns) (m :: ms)
    let srs ← determine_srs (attrGet "srsName" e :: rs.map (·.2))
    pure (.multiPolygon (rs.map polyCoords), srs)

/-- Unpack `lx, ly = lower` (exactly two components, else the Python
unpacking `ValueError`). -/
def unpack2 (c : Coordinate) : Except String (PyNum × PyNum) :=
  match c with
  | [x, y] => .ok (x, y)
  | [] => .error "not enough values to unpack (expected 2, got 0)"
  | [_] => .error "not enough values to unpack (expected 2, got 1)"
  | _ => .error "too many values to unpack (expected 2)"

/-- The rectangle ring an envelope/box expands to. -/
def envelopeRing (lx ly hx hy : PyNum) : Coordinates :=
  [[lx, ly], [lx, hy], [hx, hy], [hx, ly], [lx, ly]]

/-- `v3_common.parse_envelope`: corners from
`lowerCorner`+`upperCorner`, or two `pos` children, or one legacy
`coordinates`, or `coord` elements; expanded to the closed 5-point
rectangle ring. -/
def envelope_finish (lower upper : Coordinate) (srs : Option String) :
    Except String ParseResult := do
  let (lx, ly) ← unpack2 lower
  let (hx, hy) ← unpack2 upper
  pure (.polygon [envelopeRing lx ly hx hy], srs)

def parse_envelope (gns : String) (e : Xml) : Except String ParseResult :=
  match childrenNS gns "lowerCorner" e, childrenNS gns "upperCorner" e with
  | lo :: _, up :: _ => do
    let srs ← determine_srs [attrGet "srsName" lo, attrGet "srsName" up]
    let lower ← parse_pos lo.text
    let upper ← parse_pos up.text
    envelope_finish lower upper srs
  | _, _ =>
    match childrenNS gns "pos" e with
    | p :: ps => do
      let parsed ← mapExcept (fun (q : Xml) => parse_pos q.text) (p :: ps)
      match parsed with
      | [lower, upper] => do
        let srs ← determine_srs
          ((p :: ps).map (attrGet "srsName"))
        envelope_finish lower upper srs
      | [_] => throw "not enough values to unpack (expected 2, got 1)"
      | _ => throw "too many values to unpack (expected 2)"
    | [] =>
      match childrenNS gns "coordinates" e with
      | c :: _ => do
        let parsed ← parse_coordinates c.text (attrGetD "cs" [','] c)
          (attrGetD "ts" [' '] c) (attrGetD "decimal" ['.'] c)
        match parsed with
        | [lower, upper] => envelope_finish lower upper none
        | [] => throw "not enough values to unpack (expected 2, got 0)"
        | [_] => throw "not enough values to unpack (expected 2, got 1)"
        | _ => throw "too many values to unpack (expected 2)"
      | [] =>
        match childrenNS gns "coord" e with
        | _ :: _ => do
          let _ ← parse_coord_call
          throw "unreachable"
        | [] =>
          throw "Missing gml:lowerCorner, gml:upperCorner, gml:pos or gml:coordinates."

/-- `v3_common.parse_multi_geometry`: each member element of
`geometryMember`/`geometryMembers` is parsed with the engine's generic
entry point `geometryParserFn`; the container's own `srsName` attribute is
returned as the resolved SRS without consulting the members. -/
def parse_multi_geometry (geometryParserFn : Xml → Except String GeomObj)
    (gns : String) (e : Xml) : Except String ParseResult := do
  let gs ← mapExcept geometryParserFn
    (memberChildren gns "geometryMember" "geometryMembers" e)
  pure (.collection (GeomList.ofList gs), attrGet "srsName" e)

/-! ## `v32.py`: the older, self-contained GML 3.2 dialect module

This module carries its own near-duplicate handler functions (registered
in `_HANDLERS` via the `handle_element` decorator) and its own
`parse_v32`/`encode_v32`.  Its namespace map fixes `gml` to the 3.2
namespace.  Differences from the `v3_common` revision are preserved: no
`gml:coord` branches, and no length guard around the interior-ring
`zip(*...)` in `_parse_polygon`. -/

/-- `v32._parse_point`. -/
def parse_point_v32 (e : Xml) : Except String ParseResult :=
  match childrenNS NS32 "pos" e with
  | p :: ps =>
    if !ps.isEmpty then throw "Too many gml:pos elements"
    else do
      let coords ← parse_pos p.text
      point_finish e coords (attrGet "srsName" p)
  | [] =>
    match childrenNS NS32 "coordinates" e with
    | c :: cs =>
      if !cs.isEmpty then throw "Too many gml:coordinates elements"
      else do
        let parsed ← parse_coordinates c.text (attrGetD "cs" [','] c)
          (attrGetD "ts" [' '] c) (attrGetD "decimal" ['.'] c)
        match parsed with
        | c₀ :: _ => point_finish e c₀ none
        | [] => throw "list index out of range"
    | [] => throw "Neither gml:pos nor gml:coordinates found"

/-- `v32._parse_multi_point`. -/
def parse_multi_point_v32 (e : Xml) : Except String ParseResult := do
  match memberChildren NS32 "pointMember" "pointMembers" e with
  | [] => throw "not enough values to unpack (expected 2, got 0)"
  | m :: ms => do
    let rs ← mapExcept parse_point_v32 (m :: ms)
    let srs ← determine_srs (attrGet "srsName" e :: rs.map (·.2))
    pure (.multiPoint (rs.map pointCoords), srs)

/-- `v32._parse_linestring_or_linear_ring` (no `gml:coord` branch; the
`if not coordinates_elems` re-check inside the `elif` is dead code). -/
def parse_linestring_v32 (e : Xml) : Except String ParseResult :=
  match childrenNS NS32 "posList" e with
  | pl :: pls =>
    if !pls.isEmpty then throw "Too many gml:posList elements"
    else do
      let dims ← match attrGet "srsDimension" pl with
        | some s => parsePyNat s
        | none => pure 2
      let coordinates ← parse_poslist pl.text dims
      linestring_finish e coordinates (attrGet "srsName" pl)
  | [] =>
    match childrenNS NS32 "pos" e with
    | p :: ps => do
      let coordinates ← mapExcept (fun (q : Xml) => parse_pos q.text) (p :: ps)
      let srs ← determine_srs
        (((p :: ps).filterMap (attrGet "srsName")).map some)
      linestring_finish e coordinates srs
    | [] =>
      match childrenNS NS32 "coordinates" e with
      | c :: cs =>
        if !cs.isEmpty then throw "Too many gml:coordinates elements"
        else do
          let coordinates ← parse_coordinates c.text (attrGetD "cs" [','] c)
            (attrGetD "ts" [' '] c) (attrGetD "decimal" ['.'] c)
          linestring_finish e coordinates none
      | [] => throw "No gml:posList, gml:pos or gml:coordinates found"

/-- `v32._parse_multi_curve` (same dead member-type guard as the
`v3_common` revision). -/
def parse_multi_curve_v32 (e : Xml) : Except String ParseResult := do
  match memberChildrenTagged NS32 "curveMember" "curveMembers" "LineString" e with
  | [] => throw "not enough values to unpack (expected 2, got 0)"
  | m :: ms => do
    let rs ← mapExcept parse_linestring_v32 (m :: ms)
    let srs ← determine_srs (attrGet "srsName" e :: rs.map (·.2))
    pure (.multiLineString (rs.map lineCoords), srs)

/-- `v32._parse_polygon`: note that, unlike `v3_common.parse_polygon`,
the interior rings are unpacked with `zip(*...)` without a length guard,
so a polygon with no interior rings fails with the unpacking
`ValueError`. -/
def parse_polygon_v32 (e : Xml) : Except String ParseResult := do
  match path2 NS32 "exterior" "LinearRing" e with
  | [] => throw "No gml:exterior/gml:LinearRing"
  | ext :: exts =>
    if !exts.isEmpty then throw "Too many gml:exterior/gml:LinearRing elements"
    else do
      let extRes ← parse_linestring_v32 ext
      match path2 NS32 "interior" "LinearRing" e with
      | [] => throw "not enough values to unpack (expected 2, got 0)"
      | i :: is' => do
        let intRes ← mapExcept parse_linestring_v32 (i :: is')
        let srs ← determine_srs
          (attrGet "srsName" e :: extRes.2 :: intRes.map (·.2))
        pure (.polygon (lineCoords extRes :: intRes.map lineCoords), srs)

/-- `v32._parse_multi_surface`. -/
def parse_multi_surface_v32 (e : Xml) : Except String ParseResult := do
  match memberChildrenTagged NS32 "surfaceMember" "surfaceMembers" "Polygon" e with
  | [] => throw "not enough values to unpack (expected 2, got 0)"
  | m :: ms => do
    let rs ← mapExcept parse_polygon_v32 (m :: ms)
    let srs ← determine_srs (attrGet "srsName" e :: rs.map (·.2))
    pure (.multiPolygon (rs.map polyCoords), srs)

/-- `v32._parse_multi_geometry`: members are parsed with the module's
own `parse_v32` entry point, passed in here as `geometryParserFn`. -/
def parse_multi_geometry_v32 (geometryParserFn : Xml → Except String GeomObj)
    (e : Xml) : Except String ParseResult := do
  let gs ← mapExcept geometryParserFn
    (memberChildren NS32 "geometryMember" "geometryMembers" e)
  pure (.collection (GeomList.ofList gs), attrGet "srsName" e)

/-! ## `v33.py`: the GML 3.3 CE handlers -/

/-- `v33.parse_simple_triangle_or_rectangle`: delegate to the
LineString/LinearRing handler for the open ring, then close it by
appending the first coordinate (`IndexError` on an empty ring). -/
def parse_simple_triangle_or_rectangle (gns : String) (e : Xml) :
    Except String ParseResult := do
  let r ← parse_linestring_or_linear_ring gns e
  match lineCoords r with
  | [] => throw "list index out of range"
  | c :: cs => pure (.polygon [(c :: cs) ++ [c]], r.2)

/-- `v33.parse_simple_polygon` (same body as the triangle/rectangle
handler). -/
def parse_simple_polygon (gns : String) (e : Xml) :
    Except String ParseResult := do
  let r ← parse_linestring_or_linear_ring gns e
  match lineCoords r with
  | [] => throw "list index out of range"
  | c :: cs => pure (.polygon [(c :: cs) ++ [c]], r.2)

/-- `v33.parse_simple_multi_point` selects `gml:MultiPoint` and
`gmlce:SimpleMultiPoint` children, but its member generator calls
`etree.QName()` with no argument, so consuming it raises `TypeError` as
soon as there is at least one sub-element; with none, the `zip(*...)`
unpacking fails instead.  Either way this handler always raises. -/
def parse_simple_multi_point (e : Xml) : Except String ParseResult :=
  match e.children.filter
      (fun c => (c.ns == NS32 && c.tag == "MultiPoint") ||
                (c.ns == NS33 && c.tag == "SimpleMultiPoint")) with
  | [] => throw "not enough values to unpack (expected 2, got 0)"
  | _ :: _ =>
    throw "QName.__init__() missing 1 required positional argument: 'text_or_uri_or_element'"

/-! ## The parse engines

`GML3Parser.parse` (and its duplicate `parse_v32`): namespace check,
handler dispatch by local name, then SRS post-processing — swap the
coordinates to XY order when the resolved SRS is latitude-first and
attach the `crs` descriptor.  The recursion through
`MultiGeometry` members re-enters the engine's own entry point; it is
modelled with an explicit recursion-depth fuel (Python's call stack),
which only `MultiGeometry` nesting consumes. -/

/-- SRS post-processing of a handler result (`if srs:` — the empty
string is falsy in Python). -/
def engineFinish (r : ParseResult) : Except String GeomObj := do
  match r with
  | (data, none) => pure (bare data)
  | (data, some s) =>
    if s = "" then pure (bare data)
    else do
      let data' ← maybe_swap_data data s
      pure (.mk data' (some s) none)

/-- One dispatch step of `parse_v32`, with the recursive entry point
passed as `p`. -/
def parseV32Step (p : Xml → Except String GeomObj) (e : Xml) :
    Except String GeomObj := do
  if e.ns ≠ NS32 then
    throw ("Namespace " ++ e.ns ++ " is not supported")
  else do
    let r ←
      match e.tag with
      | "Point" => parse_point_v32 e
      | "MultiPoint" => parse_multi_point_v32 e
      | "LineString" => parse_linestring_v32 e
      | "MultiCurve" => parse_multi_curve_v32 e
      | "Polygon" => parse_polygon_v32 e
      | "MultiSurface" => parse_multi_surface_v32 e
      | "MultiGeometry" => parse_multi_geometry_v32 p e
      | t => throw ("XML nodes of type " ++ t ++ " are not supported.")
    engineFinish r

/-- `v32.parse_v32`, with recursion fuel (any fuel at least the
`MultiGeometry` nesting depth gives the Python behaviour). -/
def parseV32F : ℕ → Xml → Except String GeomObj
  | 0, _ => throw "maximum recursion depth exceeded"
  | fuel + 1, e => parseV32Step (parseV32F fuel) e

/-- One dispatch step of the GML 3.3 CE engine
(`GML33_CE_PARSER.parse`): accepts both the 3.3 CE and the 3.2
namespaces, with the `gml` prefix of its namespace map bound to the 3.2
namespace, and the handler table of `v33.py`. -/
def parseV33Step (p : Xml → Except String GeomObj) (e : Xml) :
    Except String GeomObj := do
  if e.ns ≠ NS33 ∧ e.ns ≠ NS32 then
    throw ("Namespace " ++ e.ns ++ " is not supported")
  else do
    let r ←
      match e.tag with
      | "Point" => parse_point NS32 e
      | "MultiPoint" => parse_multi_point NS32 e
      | "LineString" => parse_linestring_or_linear_ring NS32 e
      | "MultiCurve" => parse_multi_curve NS32 e
      | "Polygon" => parse_polygon NS32 e
      | "Envelope" => parse_envelope NS32 e
      | "MultiSurface" => parse_multi_surface NS32 e
      | "MultiGeometry" => parse_multi_geometry p NS32 e
      | "SimpleTriangle" => parse_simple_triangle_or_rectangle NS32 e
      | "SimpleRectangle" => parse_simple_triangle_or_rectangle NS32 e
      | "SimplePolygon" => parse_simple_polygon NS32 e
      | "SimpleMultiPoint" => parse_simple_multi_point e
      | t => throw ("XML nodes of type " ++ t ++ " are not supported.")
    engineFinish r

/-- `v33.parse_v33_ce`, with recursion fuel as for `parseV32F`. -/
def parseV33F : ℕ → Xml → Except String GeomObj
  | 0, _ => throw "maximum recursion depth exceeded"
  | fuel + 1, e => parseV33Step (parseV33F fuel) e

/-! ## The GML encoders

`v3_common.GML3Encoder` (namespace, id-required flag, and a virtual
`encode_polygon` the 3.3-CE encoder overrides), plus the standalone
`v32.encode_v32` duplicate.  The per-shape element builders below are the
shared literal element constructions of both revisions. -/

/-- The namespaced `gml:id` attribute key (lxml's `{namespace}id`). -/
def idAttrKey (ns : String) : String := "\x7b" ++ ns ++ "\x7did"

/-- `_encode_pos_list`: a `posList` element with the flattened
space-joined coordinate text and no attributes. -/
def encode_pos_list (ns : String) (cs : Coordinates) : Xml :=
  .mk ns "posList" [] []
    (sjoin (cs.map (fun c => sjoin (c.map pyStr))))

/-- `gml:Point` with a `pos` child. -/
def encode_point_el (ns : String) (c : Coordinate)
    (attrs : List (String × String)) : Xml :=
  .mk ns "Point" attrs [.mk ns "pos" [] [] (sjoin (c.map pyStr))] []

/-- `gml:MultiPoint`: note the member points are wrapped in a
`geometryMembers` element (not `pointMembers`). -/
def encode_multi_point_el (ns : String) (cs : Coordinates)
    (identifier : String) (attrs : List (String × String)) : Xml :=
  .mk ns "MultiPoint" attrs
    [.mk ns "geometryMembers" []
      (cs.enum.map (fun ic =>
        Xml.mk ns "Point" [(idAttrKey ns, identifier ++ "_" ++ natStr ic.1)]
          [.mk ns "pos" [] [] (sjoin (ic.2.map pyStr))] [])) []] []

def encode_line_string_el (ns : String) (cs : Coordinates)
    (attrs : List (String × String)) : Xml :=
  .mk ns "LineString" attrs [encode_pos_list ns cs] []

def encode_multi_line_string_el (ns : String) (css : List Coordinates)
    (identifier : String) (attrs : List (String × String)) : Xml :=
  .mk ns "MultiCurve" attrs
    [.mk ns "curveMembers" []
      (css.enum.map (fun ic =>
        Xml.mk ns "LineString"
          [(idAttrKey ns, identifier ++ "_" ++ natStr ic.1)]
          [encode_pos_list ns ic.2] [])) []] []

/-- The body of a `gml:Polygon`: `exterior/LinearRing/posList` plus
`interior/LinearRing/posList` children (`IndexError` on an empty ring
list, from `coordinates[0]`). -/
def encode_polygon_body (ns : String) (css : List Coordinates)
    (attrs : List (String × String)) : Except String Xml :=
  match css with
  | [] => throw "list index out of range"
  | ext :: ints =>
    pure (.mk ns "Polygon" attrs
      (Xml.mk ns "exterior" []
          [.mk ns "LinearRing" [] [encode_pos_list ns ext] []] [] ::
        ints.map (fun r =>
          Xml.mk ns "interior" []
            [.mk ns "LinearRing" [] [encode_pos_list ns r] []] [])) [])

/-- `GML3Encoder.encode_polygon` (the standard 3.2-style polygon
encoding). -/
def encode_polygon_std (ns : String) (css : List Coordinates)
    (attrs : List (String × String)) : Except String Xml :=
  encode_polygon_body ns css attrs

def encode_multi_polygon_el (ns : String) (csss : List (List Coordinates))
    (identifier : String) (attrs : List (String × String)) :
    Except String Xml := do
  let members ← mapExcept (fun (ic : ℕ × List Coordinates) =>
      encode_polygon_body ns ic.2
        [(idAttrKey ns, identifier ++ "_" ++ natStr ic.1)]) csss.enum
  pure (.mk ns "MultiSurface" attrs
    [.mk ns "surfaceMembers" [] members []] [])

/-- Python truthiness of the optional identifier (`None` and `''` are
falsy). -/
def idFalsy : Option String → Bool
  | none => true
  | some s => s == ""

/-- The f-string rendering of the identifier used to derive member
identifiers. -/
def idStr : Option String → String
  | none => "None"
  | some s => s

mutual

/-- `v3_common.GML3Encoder.encode`, parameterized exactly by the
instance data: target namespace, whether an identifier is required, and
the (virtual) polygon encoder. -/
def encodeCommon (ns : String) (idRequired : Bool)
    (polyEnc : List Coordinates → List (String × String) → Except String Xml) :
    GeomObj → Option String → Except String Xml
  | .mk data crs _, identifier => do
    if idFalsy identifier && idRequired then
      throw "Missing 1 required positional argument: 'identifier'"
    else do
      let srs := crs.getD "urn:ogc:def:crs:OGC::CRS84"
      let idAttr := if idFalsy identifier then ([] : List (String × String))
        else [(idAttrKey ns, idStr identifier)]
      let attrs := ("srsName", srs) :: idAttr
      match data with
      | .collection members => do
        -- `maybe_swap_coordinates` runs first and leaves a collection
        -- unchanged (or raises its `KeyError` on a latitude-first SRS)
        let _ ← maybe_swap_data (.collection members) srs
        let children ← encodeCommonList ns idRequired polyEnc
          (idStr identifier) 0 members
        pure (.mk ns "MultiGeometry" idAttr
          [.mk ns "geometryMembers" [] children []] [])
      | d => do
        let data' ← maybe_swap_data d srs
        match data' with
        | .point c => pure (encode_point_el ns c attrs)
        | .multiPoint cs =>
          pure (encode_multi_point_el ns cs (idStr identifier) attrs)
        | .lineString cs => pure (encode_line_string_el ns cs attrs)
        | .multiLineString css =>
          pure (encode_multi_line_string_el ns css (idStr identifier) attrs)
        | .polygon css => polyEnc css attrs
        | .multiPolygon csss =>
          encode_multi_polygon_el ns csss (idStr identifier) attrs
        -- unreachable: the swap preserves the geometry's constructor
        | .collection _ => throw "'coordinates'"

/-- Member encoding of a `GeometryCollection` with derived identifiers
`{identifier}_{i}`. -/
def encodeCommonList (ns : String) (idRequired : Bool)
    (polyEnc : List Coordinates → List (String × String) → Except String Xml)
    (base : String) (i : ℕ) : GeomList → Except String (List Xml)
  | .nil => pure []
  | .cons g rest => do
    let x ← encodeCommon ns idRequired polyEnc g (some (base ++ "_" ++ natStr i))
    let xs ← encodeCommonList ns idRequired polyEnc base (i + 1) rest
    pure (x :: xs)

end

/-- The `GML3Encoder` instance for GML 3.2 (`GML3Encoder(NAMESPACE,
NSMAP, True)`; `v33.py` refers to it as `GML32_ENCODER`, which this
source snapshot's `v32.py` no longer defines itself). -/
def encodeStd32 (g : GeomObj) (identifier : Option String) : Except String Xml :=
  encodeCommon NS32 true (encode_polygon_std NS32) g identifier

mutual

/-- `v32.encode_v32`: the standalone GML 3.2 encoder of the older
module revision; the identifier is a required positional argument and
the `gml:id` attribute is attached unconditionally. -/
def encodeV32 : GeomObj → String → Except String Xml
  | .mk data crs _, identifier => do
    let srs := crs.getD "urn:ogc:def:crs:OGC::CRS84"
    let idAttr := [(idAttrKey NS32, identifier)]
    let attrs := ("srsName", srs) :: idAttr
    match data with
    | .collection members => do
      let _ ← maybe_swap_data (.collection members) srs
      let children ← encodeV32List identifier 0 members
      pure (.mk NS32 "MultiGeometry" idAttr
        [.mk NS32 "geometryMembers" [] children []] [])
    | d => do
      let data' ← maybe_swap_data d srs
      match data' with
      | .point c => pure (encode_point_el NS32 c attrs)
      | .multiPoint cs => pure (encode_multi_point_el NS32 cs identifier attrs)
      | .lineString cs => pure (encode_line_string_el NS32 cs attrs)
      | .multiLineString css =>
        pure (encode_multi_line_string_el NS32 css identifier attrs)
      | .polygon css => encode_polygon_body NS32 css attrs
      | .multiPolygon csss => encode_multi_polygon_el NS32 csss identifier attrs
      -- unreachable: the swap preserves the geometry's constructor
      | .collection _ => throw "'coordinates'"

def encodeV32List (base : String) (i : ℕ) : GeomList → Except String (List Xml)
  | .nil => pure []
  | .cons g rest => do
    let x ← encodeV32 g (base ++ "_" ++ natStr i)
    let xs ← encodeV32List base (i + 1) rest
    pure (x :: xs)

end

/-- `v33.GML33CEEncoder.encode_polygon`: for a polygon with a single
ring, pick the compact 3.3-CE shape by the ring's point count and emit
its `posList` without the last point; otherwise fall back to the
inherited standard encoding. -/
def encode_polygon_v33 (css : List Coordinates)
    (attrs : List (String × String)) : Except String Xml :=
  match css with
  | [exterior] =>
    let tagName :=
      if exterior.length = 4 then "SimpleTriangle"
      else if exterior.length = 5 then "SimpleRectangle"
      else "SimplePolygon"
    pure (.mk NS33 tagName attrs [encode_pos_list NS32 exterior.dropLast] [])
  | _ => encode_polygon_std NS32 css attrs

/-- `v33.encode_v33_ce` / `GML33CE_ENCODER.encode`: the common encoder
with the 3.2 namespace, required identifier, and the compact polygon
override. -/
def encodeV33 (g : GeomObj) (identifier : Option String) : Except String Xml :=
  encodeCommon NS32 true encode_polygon_v33 g identifier

/-! ## `dimensionality.py` -/

/-- `get_dimensionality`: drill into the first coordinate of the
(possibly nested) coordinate list and return its length; `None` when
there is no (or an empty) `coordinates` member; `IndexError` when a
nested first element is an empty sequence. -/
def get_dimensionality (g : GeomObj) : Except String (Option ℕ) :=
  match g.data with
  | .point c =>
    match c with
    | [] => pure none
    | c₀ :: _ => pure (some (c₀ :: c.tail).length)
  | .multiPoint cs | .lineString cs =>
    match cs with
    | [] => pure none
    | c₀ :: _ =>
      match c₀ with
      | [] => throw "list index out of range"
      | _ => pure (some c₀.length)
  | .multiLineString css | .polygon css =>
    match css with
    | [] => pure none
    | r₀ :: _ =>
      match r₀ with
      | [] => throw "list index out of range"
      | c₀ :: _ =>
        match c₀ with
        | [] => throw "list index out of range"
        | _ => pure (some c₀.length)
  | .multiPolygon csss =>
    match csss with
    | [] => pure none
    | p₀ :: _ =>
      match p₀ with
      | [] => throw "list index out of range"
      | r₀ :: _ =>
        match r₀ with
        | [] => throw "list index out of range"
        | c₀ :: _ =>
          match c₀ with
          | [] => throw "list index out of range"
          | _ => pure (some c₀.length)
  | .collection _ => pure none

/-! ## The pre-3.2 dialect (modelled from the spec)

Modelled from the spec: the module `pygml/pre_v32.py` is not among the
sources — only its callers (`georss.py`, `parse.py`) and its tests are.
Spec §4.4/§4.5 describe it as the same generic engine/encoder
instantiated with the legacy `http://www.opengis.net/gml` namespace
(and, unlike GML 3.2, no mandatory `gml:id`), with the dialect's handler
table including the `lineStringMember`/`polygonMember` container
variants. -/

def parsePre32Step (p : Xml → Except String GeomObj) (e : Xml) :
    Except String GeomObj := do
  if e.ns ≠ NSPRE32 then
    throw ("Namespace " ++ e.ns ++ " is not supported")
  else do
    let r ←
      match e.tag with
      | "Point" => parse_point NSPRE32 e
      | "MultiPoint" => parse_multi_point NSPRE32 e
      | "LineString" => parse_linestring_or_linear_ring NSPRE32 e
      | "MultiCurve" => parse_multi_curve NSPRE32 e
      | "MultiLineString" => parse_multi_linestring NSPRE32 e
      | "Polygon" => parse_polygon NSPRE32 e
      | "MultiSurface" => parse_multi_surface NSPRE32 e
      | "MultiPolygon" => parse_multi_polygon NSPRE32 e
      | "Envelope" => parse_envelope NSPRE32 e
      | "MultiGeometry" => parse_multi_geometry p NSPRE32 e
      | t => throw ("XML nodes of type " ++ t ++ " are not supported.")
    engineFinish r

def parsePre32F : ℕ → Xml → Except String GeomObj
  | 0, _ => throw "maximum recursion depth exceeded"
  | fuel + 1, e => parsePre32Step (parsePre32F fuel) e

/-- Modelled from the spec: `pre_v32.encode_pre_v32`, the generic
encoder instantiated on the legacy GML namespace. -/
def encode_pre_v32 (g : GeomObj) (identifier : String) : Except String Xml :=
  encodeCommon NSPRE32 false (encode_polygon_std NSPRE32) g (some identifier)

/-! ## `georss.py` -/

/-- A native GeoRSS element (no attributes, no children, text only). -/
def georssEl (tag : String) (text : List Char) : Xml :=
  .mk NSGEORSS tag [] [] text

/-- `georss.parse_georss`: the four native elements (axis-swapped from
lat/lon), plus `where` deferring to the GML dialect selected by the
child's namespace. -/
def parseGeorssF (fuel : ℕ) (e : Xml) : Except String GeomObj := do
  if e.ns ≠ NSGEORSS then
    throw ("Unsupported namespace " ++ e.ns)
  else
    match e.tag with
    | "point" => do
      let c ← parse_pos e.text
      let c' ← swap_coordinate_xy c
      pure (bare (.point c'))
    | "line" => do
      let cs ← parse_poslist e.text 2
      let cs' ← swap_coordinates_xy cs
      pure (bare (.lineString cs'))
    | "box" => do
      let cs ← parse_poslist e.text 2
      let sw ← swap_coordinates_xy cs
      match sw with
      | [low, high] => do
        let (lx, ly) ← unpack2 low
        let (hx, hy) ← unpack2 high
        pure (.mk (.polygon [envelopeRing lx ly hx hy]) none
          (some [lx, ly, hx, hy]))
      | [] => throw "not enough values to unpack (expected 2, got 0)"
      | [_] => throw "not enough values to unpack (expected 2, got 1)"
      | _ => throw "too many values to unpack (expected 2)"
    | "polygon" => do
      let cs ← parse_poslist e.text 2
      let sw ← swap_coordinates_xy cs
      pure (bare (.polygon [sw]))
    | "where" =>
      match e.children with
      | [c] =>
        if c.ns = NSPRE32 then parsePre32F fuel c
        else if c.ns = NS32 then parseV32F fuel c
        else if c.ns = NS33 then parseV33F fuel c
        else throw ("Unsupported child element in georss:where: " ++ c.tag)
      | _ => throw "Invalid number of child elements in georss:where"
    | t => throw ("Unsupported georss element: " ++ t)

/-- The CRS-code eligibility test `code in (None, 4326, 'CRS84')`. -/
def codeEligible (code : Option CrsCode) : Bool :=
  code = none || code = some (.epsg 4326) || code = some .crs84

/-- The CRS code consulted by `encode_georss`: `None` without a `crs`
member, else `get_crs_code` of its name (whose unrecognized-format error
propagates). -/
def crs_code_of (crs : Option String) : Except String (Option CrsCode) :=
  match crs with
  | none => pure none
  | some name => do
    let c ← get_crs_code name
    pure (some c)

/-- `georss.encode_georss`: native `point`/`line`/`polygon` when the
CRS code is absent/4326/CRS84 and the geometry is 2-dimensional (and a
polygon has only its exterior); otherwise `georss:where` wrapping the
`gml_encoder` output with the fixed placeholder identifier `'ID'`. -/
def encode_georss (g : GeomObj)
    (gml_encoder : GeomObj → String → Except String Xml) :
    Except String Xml := do
  let dims ← get_dimensionality g
  let code ← crs_code_of g.crs
  let fallback : Except String Xml := do
    let x ← gml_encoder g "ID"
    pure (.mk NSGEORSS "where" [] [x] [])
  if codeEligible code ∧ dims = some 2 then
    match g.data with
    | .point c => do
      let c' ← swap_coordinate_xy c
      pure (georssEl "point" (sjoin (c'.map pyStr)))
    | .lineString cs => do
      let cs' ← swap_coordinates_xy cs
      pure (georssEl "line" (sjoin (cs'.map (fun c => sjoin (c.map pyStr)))))
    | .polygon css =>
      match css with
      | [ext] => do
        let ext' ← swap_coordinates_xy ext
        pure (georssEl "polygon" (sjoin (ext'.map (fun c => sjoin (c.map pyStr)))))
      | _ => fallback
    | _ => fallback
  else
    fallback

/-- `encode_georss` with its default `gml_encoder` argument, which the
source sets to `encode_pre_v32`. -/
def encode_georss_default (g : GeomObj) : Except String Xml :=
  encode_georss g encode_pre_v32

/-! ## Support lemmas: split/join round trips and grouping -/

/-- A list of clean tokens: each nonempty and whitespace-free. -/
def tokensOk (ts : List (List Char)) : Prop :=
  ∀ t ∈ ts, t ≠ [] ∧ ∀ c ∈ t, isWs c = false

theorem pySplitAcc_append (t : List Char) (h : ∀ c ∈ t, isWs c = false) :
    ∀ (cur rest : List Char),
      pySplitAcc cur (t ++ rest) = pySplitAcc (cur ++ t) rest := by
  induction t with
  | nil => intro cur rest; simp
  | cons c cs ih =>
    intro cur rest
    have hc : isWs c = false := h c (List.mem_cons_self ..)
    have hcs : ∀ x ∈ cs, isWs x = false := fun x hx => h x (List.mem_cons_of_mem _ hx)
    simp only [List.cons_append, pySplitAcc, hc, Bool.false_eq_true, if_false]
    exact (ih hcs (cur ++ [c]) rest).trans (by rw [List.append_assoc]; rfl)

theorem pySplit_sjoin : ∀ (ts : List (List Char)), tokensOk ts →
    pySplit (sjoin ts) = ts := by
  intro ts
  induction ts with
  | nil => intro _; rfl
  | cons t us ih =>
    intro h
    have ht : t ≠ [] ∧ ∀ c ∈ t, isWs c = false := h t (List.mem_cons_self ..)
    have hus : tokensOk us := fun u hu => h u (List.mem_cons_of_mem _ hu)
    cases us with
    | nil =>
      show pySplitAcc [] (sjoin [t]) = [t]
      have : sjoin [t] = t ++ [] := by simp [sjoin]
      rw [this, pySplitAcc_append t ht.2]
      simp [pySplitAcc, ht.1]
    | cons u vs =>
      show pySplitAcc [] (sjoin (t :: u :: vs)) = t :: u :: vs
      have hj : sjoin (t :: u :: vs) = t ++ (' ' :: sjoin (u :: vs)) := rfl
      rw [hj, pySplitAcc_append t ht.2]
      simp only [List.nil_append]
      have hw : pySplitAcc t (' ' :: sjoin (u :: vs)) =
          t :: pySplitAcc [] (sjoin (u :: vs)) := by
        simp [pySplitAcc, isWs, ht.1]
      rw [hw]
      have := ih hus
      simp only [pySplit] at this
      rw [this]

theorem sjoin_append : ∀ (ts us : List (List Char)), ts ≠ [] → us ≠ [] →
    sjoin (ts ++ us) = sjoin ts ++ ' ' :: sjoin us := by
  intro ts
  induction ts with
  | nil => intro us h _; exact absurd rfl h
  | cons t ts' ih =>
    intro us _ hus
    cases ts' with
    | nil =>
      cases us with
      | nil => exact absurd rfl hus
      | cons u vs => rfl
    | cons t₂ ts'' =>
      have := ih us (by simp) hus
      show sjoin (t :: (t₂ :: ts'' ++ us)) = _
      have hne : t₂ :: ts'' ++ us ≠ [] := by simp
      cases h : t₂ :: ts'' ++ us with
      | nil => exact absurd h hne
      | cons w ws =>
        show t ++ ' ' :: sjoin (w :: ws) = (t ++ ' ' :: sjoin (t₂ :: ts'')) ++ ' ' :: sjoin us
        rw [← h, this, List.append_assoc]
        rfl

theorem sjoin_flatten : ∀ (ls : List (List (List Char))),
    (∀ l ∈ ls, l ≠ []) → sjoin (ls.map sjoin) = sjoin ls.flatten := by
  intro ls
  induction ls with
  | nil => intro _; rfl
  | cons l ms ih =>
    intro h
    have hl : l ≠ [] := h l (List.mem_cons_self ..)
    have hms : ∀ m ∈ ms, m ≠ [] := fun m hm => h m (List.mem_cons_of_mem _ hm)
    cases ms with
    | nil => simp [sjoin]
    | cons m ms' =>
      have hflat : (m :: ms').flatten ≠ [] := by
        have hm : m ≠ [] := hms m (List.mem_cons_self ..)
        cases m with
        | nil => exact absurd rfl hm
        | cons x xs => simp
      show sjoin (sjoin l :: (m :: ms').map sjoin) = sjoin (l ++ (m :: ms').flatten)
      rw [sjoin_append l _ hl hflat, ← ih hms]
      cases hmap : (m :: ms').map sjoin with
      | nil => simp at hmap
      | cons y ys => rw [← hmap]; rfl

/-! ### Extraction lemmas for `goodNum` -/

theorem goodNum_roundtrip {q : PyNum} (h : goodNum q = true) :
    pyFloat (pyStr q) = .ok q := by
  unfold goodNum at h
  rcases Bool.and_eq_true_iff.mp h with ⟨_, h₃⟩
  cases hp : pyFloat (pyStr q) with
  | ok r =>
    rw [hp] at h₃
    simp only [decide_eq_true_eq] at h₃
    exact congrArg Except.ok h₃
  | error m => rw [hp] at h₃; simp at h₃

theorem goodNum_token {q : PyNum} (h : goodNum q = true) :
    pyStr q ≠ [] ∧ ∀ c ∈ pyStr q, isWs c = false := by
  unfold goodNum at h
  rcases Bool.and_eq_true_iff.mp h with ⟨h₁₂, _⟩
  rcases Bool.and_eq_true_iff.mp h₁₂ with ⟨h₁, h₂⟩
  refine ⟨by simpa using h₁, fun c hc => ?_⟩
  have := List.all_eq_true.mp h₂ c hc
  simpa using this

theorem tokensOk_map_pyStr {l : List PyNum} (h : ∀ q ∈ l, goodNum q = true) :
    tokensOk (l.map pyStr) := by
  intro t ht
  rcases List.mem_map.mp ht with ⟨q, hq, rfl⟩
  exact goodNum_token (h q hq)

/-! ### `mapExcept` lemmas -/

theorem mapExcept_map_pyFloat {l : List PyNum} (h : ∀ q ∈ l, goodNum q = true) :
    mapExcept pyFloat (l.map pyStr) = .ok l := by
  induction l with
  | nil => rfl
  | cons q qs ih =>
    have hq : pyFloat (pyStr q) = .ok q := goodNum_roundtrip (h q (List.mem_cons_self ..))
    have hqs := ih (fun x hx => h x (List.mem_cons_of_mem _ hx))
    simp only [List.map_cons, mapExcept, hq, hqs]
    rfl

/-- Round trip of `parse_pos` over the encoder's `pos` text. -/
theorem parse_pos_print {c : Coordinate} (h : ∀ q ∈ c, goodNum q = true) :
    parse_pos (sjoin (c.map pyStr)) = .ok c := by
  unfold parse_pos
  rw [show pySplit (sjoin (c.map pyStr)) = c.map pyStr from
    pySplit_sjoin _ (tokensOk_map_pyStr h)]
  exact mapExcept_map_pyFloat h

/-! ### `chunk` lemmas -/

theorem chunkF_flatten {α : Type} {d : ℕ} (hd : 0 < d) :
    ∀ (f : ℕ) (l : List α), l.length ≤ f → (chunkF d f l).flatten = l := by
  intro f
  induction f with
  | zero =>
    intro l hl
    have : l = [] := List.eq_nil_of_length_eq_zero (Nat.le_zero.mp hl)
    subst this; rfl
  | succ f ih =>
    intro l hl
    cases l with
    | nil => rfl
    | cons x xs =>
      have hb : ((x :: xs).drop d).length ≤ f := by
        rw [List.length_drop]
        simp only [List.length_cons] at hl ⊢
        omega
      simp only [chunkF, List.flatten_cons]
      rw [ih ((x :: xs).drop d) hb, List.take_append_drop]

theorem chunk_flatten_groups {α : Type} {d : ℕ} (hd : 0 < d) :
    ∀ (ls : List (List α)), (∀ l ∈ ls, l.length = d) →
      ∀ (f : ℕ), ls.flatten.length ≤ f → chunkF d f ls.flatten = ls := by
  intro ls
  induction ls with
  | nil =>
    intro _ f _
    cases f <;> rfl
  | cons l ms ih =>
    intro h f hf
    have hl : l.length = d := h l (List.mem_cons_self ..)
    have hms : ∀ m ∈ ms, m.length = d := fun m hm => h m (List.mem_cons_of_mem _ hm)
    cases l with
    | nil => rw [← hl] at hd; exact absurd hd (by simp)
    | cons x xs =>
      cases f with
      | zero =>
        exfalso
        simp only [List.flatten_cons, List.length_append, List.length_cons] at hf
        omega
      | succ f' =>
        have hfl : ((x :: xs) :: ms).flatten = x :: (xs ++ ms.flatten) := by simp
        rw [hfl]
        simp only [chunkF]
        have htake : (x :: (xs ++ ms.flatten)).take d = x :: xs := by
          have := List.take_left (x :: xs) ms.flatten
          rw [hl] at this
          simpa using this
        have hdrop : (x :: (xs ++ ms.flatten)).drop d = ms.flatten := by
          have := List.drop_left (x :: xs) ms.flatten
          rw [hl] at this
          simpa using this
        have hbound : ms.flatten.length ≤ f' := by
          simp only [List.flatten_cons, List.length_append, List.length_cons] at hf
          simp only [List.length_cons] at hl
          omega
        rw [htake, hdrop, ih hms f' hbound]

/-! ### Bind helpers for evaluating handler bodies around symbolic text -/

theorem bind_ok {α β : Type} {x : Except String α} {a : α} (h : x = .ok a)
    (k : α → Except String β) : x >>= k = k a := by rw [h]; rfl

theorem bind_error {α β : Type} {x : Except String α} {m : String}
    (h : x = .error m) (k : α → Except String β) :
    x >>= k = .error m := by rw [h]; rfl

theorem flatten_length_const {α : Type} {d : ℕ} :
    ∀ (ls : List (List α)), (∀ l ∈ ls, l.length = d) →
      ls.flatten.length = d * ls.length := by
  intro ls
  induction ls with
  | nil => intro _; simp
  | cons l ms ih =>
    intro h
    have hl := h l (List.mem_cons_self ..)
    have := ih (fun m hm => h m (List.mem_cons_of_mem _ hm))
    simp only [List.flatten_cons, List.length_append, List.length_cons, this, hl]
    ring

/-- The flattened space-joined text a `posList` is encoded with. -/
def posListText (cs : Coordinates) : List Char :=
  sjoin (cs.map (fun c => sjoin (c.map pyStr)))

theorem posListText_tokens {cs : Coordinates} (hne : ∀ c ∈ cs, c ≠ []) :
    posListText cs = sjoin (cs.flatten.map pyStr) := by
  unfold posListText
  have h₁ : cs.map (fun c => sjoin (c.map pyStr)) =
      (cs.map (List.map pyStr)).map sjoin := by
    rw [List.map_map]; rfl
  rw [h₁, sjoin_flatten _ ?_, ← List.map_flatten]
  intro l hl
  rcases List.mem_map.mp hl with ⟨c, hc, rfl⟩
  have := hne c hc
  cases c with
  | nil => exact absurd rfl this
  | cons x xs => simp

/-- `parse_poslist` over the encoder's flattened `posList` text: the
numbers come back in order and are regrouped into `d`-sized tuples,
failing exactly on the divisibility check. -/
theorem parse_poslist_print {cs : Coordinates} (hne : ∀ c ∈ cs, c ≠ [])
    (hg : ∀ q ∈ cs.flatten, goodNum q = true) (d : ℕ) :
    parse_poslist (posListText cs) d =
      if d = 0 then .error "integer division or modulo by zero"
      else if cs.flatten.length % d > 0 then
        .error "Invalid dimensionality of pos list"
      else .ok (chunk d cs.flatten) := by
  have hsplit : pySplit (posListText cs) = cs.flatten.map pyStr := by
    rw [posListText_tokens hne]
    exact pySplit_sjoin _ (tokensOk_map_pyStr hg)
  have hraw : mapExcept pyFloat (pySplit (posListText cs)) = .ok cs.flatten := by
    rw [hsplit]; exact mapExcept_map_pyFloat hg
  unfold parse_poslist
  exact (bind_ok hraw _).trans rfl

/-- Regrouping at the original dimension recovers the original
coordinates. -/
theorem chunk_flatten_eq {α : Type} {d : ℕ} (hd : 0 < d) (ls : List (List α))
    (h : ∀ l ∈ ls, l.length = d) : chunk d ls.flatten = ls :=
  chunk_flatten_groups hd ls h ls.flatten.length (le_refl _)

/-- Round trip of `parse_poslist` at the matching dimension. -/
theorem parse_poslist_print_exact {cs : Coordinates} {d : ℕ} (hd : 0 < d)
    (hlen : ∀ c ∈ cs, c.length = d)
    (hg : ∀ q ∈ cs.flatten, goodNum q = true) :
    parse_poslist (posListText cs) d = .ok cs := by
  have hne : ∀ c ∈ cs, c ≠ [] := by
    intro c hc h0
    have h1 := hlen c hc
    rw [h0] at h1
    simp only [List.length_nil] at h1
    omega
  rw [parse_poslist_print hne hg d]
  have hmod : cs.flatten.length % d = 0 := by
    rw [flatten_length_const cs hlen]
    exact Nat.mul_mod_right d _
  have hd' : ¬ (d = 0) := hd.ne'
  simp only [hd', if_false, hmod, gt_iff_lt, Nat.lt_irrefl, if_false]
  rw [chunk_flatten_eq hd cs hlen]

/-! ### Handler-level round trips over encoded elements -/

theorem parse_point_print {c : Coordinate} (hg : ∀ q ∈ c, goodNum q = true)
    {attrs : List (String × String)} {srsv : Option String}
    (hs : determine_srs [lookupStr "srsName" attrs, none] = .ok srsv) :
    parse_point NS32 (encode_point_el NS32 c attrs) = .ok (.point c, srsv) :=
  (bind_ok (parse_pos_print hg) _).trans ((bind_ok hs _).trans rfl)

theorem parse_point_v32_print {c : Coordinate} (hg : ∀ q ∈ c, goodNum q = true)
    {attrs : List (String × String)} {srsv : Option String}
    (hs : determine_srs [lookupStr "srsName" attrs, none] = .ok srsv) :
    parse_point_v32 (encode_point_el NS32 c attrs) = .ok (.point c, srsv) :=
  (bind_ok (parse_pos_print hg) _).trans ((bind_ok hs _).trans rfl)

theorem parse_point_pre32_print {c : Coordinate}
    (hg : ∀ q ∈ c, goodNum q = true)
    {attrs : List (String × String)} {srsv : Option String}
    (hs : determine_srs [lookupStr "srsName" attrs, none] = .ok srsv) :
    parse_point NSPRE32 (encode_point_el NSPRE32 c attrs) = .ok (.point c, srsv) :=
  (bind_ok (parse_pos_print hg) _).trans ((bind_ok hs _).trans rfl)

theorem parse_linestring_print {cs : Coordinates}
    (hne : ∀ c ∈ cs, c ≠ []) (hg : ∀ q ∈ cs.flatten, goodNum q = true)
    (hmod : cs.flatten.length % 2 = 0)
    {attrs : List (String × String)} {srsv : Option String}
    (hs : determine_srs [lookupStr "srsName" attrs, none] = .ok srsv) :
    parse_linestring_or_linear_ring NS32 (encode_line_string_el NS32 cs attrs) =
      .ok (.lineString (chunk 2 cs.flatten), srsv) := by
  have hpl : parse_poslist (posListText cs) 2 = .ok (chunk 2 cs.flatten) := by
    rw [parse_poslist_print hne hg 2, if_neg (by norm_num), if_neg (by omega)]
  exact (bind_ok hpl _).trans ((bind_ok hs _).trans rfl)

theorem parse_linestring_v32_print {cs : Coordinates}
    (hne : ∀ c ∈ cs, c ≠ []) (hg : ∀ q ∈ cs.flatten, goodNum q = true)
    (hmod : cs.flatten.length % 2 = 0)
    {attrs : List (String × String)} {srsv : Option String}
    (hs : determine_srs [lookupStr "srsName" attrs, none] = .ok srsv) :
    parse_linestring_v32 (encode_line_string_el NS32 cs attrs) =
      .ok (.lineString (chunk 2 cs.flatten), srsv) := by
  have hpl : parse_poslist (posListText cs) 2 = .ok (chunk 2 cs.flatten) := by
    rw [parse_poslist_print hne hg 2, if_neg (by norm_num), if_neg (by omega)]
  exact (bind_ok hpl _).trans ((bind_ok hs _).trans rfl)

/-- The failing direction: an odd number of components cannot be
regrouped at the parser's default dimension 2. -/
theorem parse_linestring_print_odd {cs : Coordinates}
    (hne : ∀ c ∈ cs, c ≠ []) (hg : ∀ q ∈ cs.flatten, goodNum q = true)
    (hmod : cs.flatten.length % 2 = 1) (attrs : List (String × String)) :
    parse_linestring_or_linear_ring NS32 (encode_line_string_el NS32 cs attrs) =
      .error "Invalid dimensionality of pos list" := by
  have hpl : parse_poslist (posListText cs) 2 =
      .error "Invalid dimensionality of pos list" := by
    rw [parse_poslist_print hne hg 2, if_neg (by norm_num), if_pos (by omega)]
  exact bind_error hpl _

/-- Round trips at dimension 2 (all coordinates two-component). -/
theorem parse_linestring_print2 {cs : Coordinates}
    (h2 : ∀ c ∈ cs, c.length = 2) (hg : ∀ q ∈ cs.flatten, goodNum q = true)
    {attrs : List (String × String)} {srsv : Option String}
    (hs : determine_srs [lookupStr "srsName" attrs, none] = .ok srsv) :
    parse_linestring_or_linear_ring NS32 (encode_line_string_el NS32 cs attrs) =
      .ok (.lineString cs, srsv) := by
  have hne : ∀ c ∈ cs, c ≠ [] := by
    intro c hc h0
    have h1 := h2 c hc
    rw [h0] at h1
    simp at h1
  have hmod : cs.flatten.length % 2 = 0 := by
    rw [flatten_length_const cs h2]
    exact Nat.mul_mod_right 2 _
  have := parse_linestring_print hne hg hmod hs
  rwa [chunk_flatten_eq (by norm_num) cs h2] at this

theorem parse_linestring_v32_print2 {cs : Coordinates}
    (h2 : ∀ c ∈ cs, c.length = 2) (hg : ∀ q ∈ cs.flatten, goodNum q = true)
    {attrs : List (String × String)} {srsv : Option String}
    (hs : determine_srs [lookupStr "srsName" attrs, none] = .ok srsv) :
    parse_linestring_v32 (encode_line_string_el NS32 cs attrs) =
      .ok (.lineString cs, srsv) := by
  have hne : ∀ c ∈ cs, c ≠ [] := by
    intro c hc h0
    have h1 := h2 c hc
    rw [h0] at h1
    simp at h1
  have hmod : cs.flatten.length % 2 = 0 := by
    rw [flatten_length_const cs h2]
    exact Nat.mul_mod_right 2 _
  have := parse_linestring_v32_print hne hg hmod hs
  rwa [chunk_flatten_eq (by norm_num) cs h2] at this

/-- Groups cut from a list whose length the group size divides all have
exactly the group size. -/
theorem chunkF_group_length {α : Type} {d : ℕ} (hd : 0 < d) :
    ∀ (f : ℕ) (l : List α), l.length ≤ f → d ∣ l.length →
      ∀ g ∈ chunkF d f l, g.length = d := by
  intro f
  induction f with
  | zero =>
    intro l hl _ g hg
    have : l = [] := List.eq_nil_of_length_eq_zero (Nat.le_zero.mp hl)
    subst this
    simp [chunkF] at hg
  | succ f ih =>
    intro l hl hdl g hg
    cases l with
    | nil => simp [chunkF] at hg
    | cons x xs =>
      have hlen : d ≤ (x :: xs).length := Nat.le_of_dvd (by simp) hdl
      simp only [chunkF, List.mem_cons] at hg
      rcases hg with hg | hg
      · subst hg
        rw [List.length_take]
        omega
      · refine ih _ ?_ ?_ g hg
        · rw [List.length_drop]
          simp only [List.length_cons] at hl ⊢
          omega
        · rw [List.length_drop]
          exact Nat.dvd_sub' hdl (dvd_refl d)

/-! ## The claims -/

/-- C3: `parse_poslist` on a whitespace-separated run of `n` numbers with
dimension `d > 0` fails with the dimension-mismatch error exactly when
`d` does not divide `n`, and otherwise returns the numbers grouped into
consecutive coordinate tuples of length `d` (the groups concatenate back
to the input numbers and each has length `d`). -/
theorem c3_poslist_dimension (s : List Char) (d : ℕ) (nums : List PyNum)
    (hd : 0 < d) (hparse : mapExcept pyFloat (pySplit s) = .ok nums) :
    (¬ d ∣ nums.length →
      parse_poslist s d = .error "Invalid dimensionality of pos list") ∧
    (d ∣ nums.length →
      parse_poslist s d = .ok (chunk d nums) ∧
      (chunk d nums).flatten = nums ∧
      ∀ g ∈ chunk d nums, g.length = d) := by
  have hbody : parse_poslist s d =
      (if d = 0 then .error "integer division or modulo by zero"
       else if nums.length % d > 0 then
         .error "Invalid dimensionality of pos list"
       else .ok (chunk d nums)) := by
    unfold parse_poslist
    exact (bind_ok hparse _).trans rfl
  constructor
  · intro hdvd
    rw [hbody, if_neg (by omega), if_pos ?_]
    have h0 : ¬ nums.length % d = 0 := fun hc => hdvd (Nat.dvd_of_mod_eq_zero hc)
    omega
  · intro hdvd
    have hmod : nums.length % d = 0 := Nat.mod_eq_zero_of_dvd hdvd
    refine ⟨by rw [hbody, if_neg (by omega), if_neg (by omega)], ?_, ?_⟩
    · exact chunkF_flatten hd nums.length nums (le_refl _)
    · intro g hg
      -- groups of a divisible-length list all have length `d`
      rcases hdvd with ⟨k, hk⟩
      -- reconstruct `nums` as a flatten of `d`-sized groups via `chunk`
      -- and read the group lengths off the reconstruction
      revert hg
      have : ∀ (f : ℕ) (l : List PyNum), l.length ≤ f → d ∣ l.length →
          ∀ g ∈ chunkF d f l, g.length = d := by
        intro f
        induction f with
        | zero =>
          intro l hl _ g hg
          have : l = [] := List.eq_nil_of_length_eq_zero (Nat.le_zero.mp hl)
          subst this
          simp [chunkF] at hg
        | succ f ih =>
          intro l hl hdl g hg
          cases l with
          | nil => simp [chunkF] at hg
          | cons x xs =>
            have hlen : d ≤ (x :: xs).length := Nat.le_of_dvd (by simp) hdl
            simp only [chunkF, List.mem_cons] at hg
            rcases hg with hg | hg
            · subst hg
              rw [List.length_take]
              omega
            · refine ih _ ?_ ?_ g hg
              · rw [List.length_drop]
                simp only [List.length_cons] at hl ⊢
                omega
              · rw [List.length_drop]
                exact Nat.dvd_sub' hdl (dvd_refl d)
      intro hg
      exact this nums.length nums (le_refl _) ⟨k, hk⟩ g hg

/-- C3 witness: `parse_poslist("1 2 3 4 5", dimensions=2)` fails with the
dimension error and `parse_poslist("1 2 3 4", dimensions=2)` yields
`[(1,2),(3,4)]`. -/
theorem c3_poslist_dimension_witness :
    parse_poslist "1 2 3 4 5".toList 2 =
      .error "Invalid dimensionality of pos list" ∧
    parse_poslist "1 2 3 4".toList 2 = .ok [[pn 1, pn 2], [pn 3, pn 4]] := by
  constructor
  · exact (c3_poslist_dimension "1 2 3 4 5".toList 2
      [pn 1, pn 2, pn 3, pn 4, pn 5] (by norm_num) (by rfl)).1 (by decide)
  · exact ((c3_poslist_dimension "1 2 3 4".toList 2
      [pn 1, pn 2, pn 3, pn 4] (by norm_num) (by rfl)).2 (by decide)).1

theorem determine_srs_pair_ne {s₁ s₂ : String} (h : s₁ ≠ s₂) :
    determine_srs [some s₁, some s₂] =
      .error ("Conflicting SRS definitions: " ++
        String.intercalate ", " [s₁, s₂]) := by
  unfold determine_srs
  have hb : (s₂ == s₁) = false := beq_eq_false_iff_ne.mpr (Ne.symm h)
  have hb' : (s₂ != s₁) = true := by simp [bne, hb]
  simp [List.filterMap_cons, hb, hb']

theorem determine_srs_pair_eq (s : String) :
    determine_srs [some s, some s] = .ok (some s) := by
  unfold determine_srs
  simp [List.filterMap_cons]

/-- C2: parsing a LineString whose element carries one `srsName` while
its child `pos` carries another fails with the SRS-conflict error when
the two values differ, and succeeds — resolving to the single value —
when they are identical.  Distinct non-null values in one scope are a
hard error, never an override. -/
theorem c2_srs_conflict (s₁ s₂ : String) (posText : List Char) (c : Coordinate)
    (hp : parse_pos posText = .ok c) :
    (s₁ ≠ s₂ →
      parse_linestring_or_linear_ring NS32
        (.mk NS32 "LineString" [("srsName", s₁)]
          [.mk NS32 "pos" [("srsName", s₂)] [] posText] []) =
        .error ("Conflicting SRS definitions: " ++
          String.intercalate ", " [s₁, s₂])) ∧
    (s₁ = s₂ →
      parse_linestring_or_linear_ring NS32
        (.mk NS32 "LineString" [("srsName", s₁)]
          [.mk NS32 "pos" [("srsName", s₂)] [] posText] []) =
        .ok (.lineString [c], some s₁)) := by
  have hmap : mapExcept (fun (q : Xml) => parse_pos q.text)
      [Xml.mk NS32 "pos" [("srsName", s₂)] [] posText] = .ok [c] :=
    (bind_ok hp _).trans rfl
  constructor
  · intro h
    exact (bind_ok hmap _).trans (bind_error (determine_srs_pair_ne h) _)
  · intro h
    subst h
    exact (bind_ok hmap _).trans ((bind_ok (determine_srs_pair_eq s₁) _).trans rfl)

/-- C2 witness at the claim's concrete SRS pair. -/
theorem c2_srs_conflict_witness :
    parse_linestring_or_linear_ring NS32
      (.mk NS32 "LineString" [("srsName", "EPSG:4326")]
        [.mk NS32 "pos" [("srsName", "EPSG:3857")] [] "1.0 2.0".toList] []) =
      .error ("Conflicting SRS definitions: " ++
        String.intercalate ", " ["EPSG:4326", "EPSG:3857"]) ∧
    parse_linestring_or_linear_ring NS32
      (.mk NS32 "LineString" [("srsName", "EPSG:4326")]
        [.mk NS32 "pos" [("srsName", "EPSG:4326")] [] "1.0 2.0".toList] []) =
      .ok (.lineString [[pn 1, pn 2]], some "EPSG:4326") :=
  ⟨(c2_srs_conflict "EPSG:4326" "EPSG:3857" "1.0 2.0".toList [pn 1, pn 2]
      (by rfl)).1 (by decide),
   (c2_srs_conflict "EPSG:4326" "EPSG:4326" "1.0 2.0".toList [pn 1, pn 2]
      (by rfl)).2 rfl⟩

/-- C4: an Envelope with corners `(lx,ly)`/`(hx,hy)` parses to — and a
GeoRSS `box` (whose text is lat/lon ordered) expands to — a `Polygon`
with the single closed 5-point ring
`[(lx,ly),(lx,hy),(hx,hy),(hx,ly),(lx,ly)]` (the box additionally
retains the bounds as `bbox`). -/
theorem c4_envelope_box (lowText upText boxText : List Char)
    (lx ly hx hy : PyNum)
    (hlo : parse_pos lowText = .ok [lx, ly])
    (hup : parse_pos upText = .ok [hx, hy])
    (hbox : parse_poslist boxText 2 = .ok [[ly, lx], [hy, hx]]) (fuel : ℕ) :
    parse_envelope NS32 (.mk NS32 "Envelope" []
        [.mk NS32 "lowerCorner" [] [] lowText,
         .mk NS32 "upperCorner" [] [] upText] []) =
      .ok (.polygon [[[lx, ly], [lx, hy], [hx, hy], [hx, ly], [lx, ly]]],
        none) ∧
    parseGeorssF fuel (georssEl "box" boxText) =
      .ok (.mk (.polygon [[[lx, ly], [lx, hy], [hx, hy], [hx, ly], [lx, ly]]])
        none (some [lx, ly, hx, hy])) := by
  constructor
  · exact (bind_ok hlo _).trans ((bind_ok hup _).trans rfl)
  · exact (bind_ok hbox _).trans rfl

/-- C4 witness at the claim's corners `lower=(0,1)`, `upper=(2,3)`. -/
theorem c4_envelope_box_witness :
    parse_envelope NS32 (.mk NS32 "Envelope" []
        [.mk NS32 "lowerCorner" [] [] "0 1".toList,
         .mk NS32 "upperCorner" [] [] "2 3".toList] []) =
      .ok (.polygon [[[pn 0, pn 1], [pn 0, pn 3], [pn 2, pn 3], [pn 2, pn 1],
        [pn 0, pn 1]]], none) ∧
    parseGeorssF 1 (georssEl "box" "1 0 3 2".toList) =
      .ok (.mk (.polygon [[[pn 0, pn 1], [pn 0, pn 3], [pn 2, pn 3],
        [pn 2, pn 1], [pn 0, pn 1]]]) none (some [pn 0, pn 1, pn 2, pn 3])) :=
  c4_envelope_box "0 1".toList "2 3".toList "1 0 3 2".toList
    (pn 0) (pn 1) (pn 2) (pn 3) (by rfl) (by rfl) (by rfl) 1

/-- C5 counterexample: a `MultiCurve` whose `curveMember` children
contain a non-`LineString` member (`gml:Curve`) does NOT fail with an
unsupported-member-type error — the xpath selection silently drops the
`Curve` and the parse succeeds with the remaining `LineString`. -/
theorem c5_counterexample :
    parse_multi_curve NS32 (.mk NS32 "MultiCurve" []
        [.mk NS32 "curveMember" [] [.mk NS32 "Curve" [] [] []] [],
         .mk NS32 "curveMember" []
           [.mk NS32 "LineString" []
             [.mk NS32 "posList" [] [] "1 2 3 4".toList] []] []] []) =
      .ok (.multiLineString [[[pn 1, pn 2], [pn 3, pn 4]]], none) := by
  rfl

/-- C5 amended: non-`LineString` members of a `MultiCurve` are silently
ignored (removing such a member does not change the parse result); with
only `LineString` members the parse succeeds and yields a
`MultiLineString` of their coordinate sequences; and when no
`LineString` member remains at all, the parse fails with the tuple
unpacking error, not an unsupported-member-type error. -/
theorem c5_member_handling :
    (∀ (attrs : List (String × String)) (pre post : List Xml) (bad : Xml),
      (bad.ns == NS32 && bad.tag == "LineString") = false →
      parse_multi_curve NS32 (.mk NS32 "MultiCurve" attrs
          (pre ++ [.mk NS32 "curveMember" [] [bad] []] ++ post) []) =
        parse_multi_curve NS32 (.mk NS32 "MultiCurve" attrs (pre ++ post) [])) ∧
    (∀ (t₁ t₂ : List Char) (cs₁ cs₂ : Coordinates),
      parse_poslist t₁ 2 = .ok cs₁ → parse_poslist t₂ 2 = .ok cs₂ →
      parse_multi_curve NS32 (.mk NS32 "MultiCurve" []
          [.mk NS32 "curveMember" []
            [.mk NS32 "LineString" [] [.mk NS32 "posList" [] [] t₁] []] [],
           .mk NS32 "curveMember" []
            [.mk NS32 "LineString" [] [.mk NS32 "posList" [] [] t₂] []] []] []) =
        .ok (.multiLineString [cs₁, cs₂], none)) ∧
    parse_multi_curve NS32 (.mk NS32 "MultiCurve" []
        [.mk NS32 "curveMember" [] [.mk NS32 "Curve" [] [] []] []] []) =
      .error "not enough values to unpack (expected 2, got 0)" := by
  refine ⟨?_, ?_, by rfl⟩
  · intro attrs pre post bad hbad
    have hbadf : List.filter (fun c => c.ns == NS32 && c.tag == "LineString")
        [bad] = [] := by
      rw [List.filter_cons]
      simp [hbad]
    have hwrap : List.filter
        (fun c => c.ns == NS32 &&
          (c.tag == "curveMember" || c.tag == "curveMembers"))
        [Xml.mk NS32 "curveMember" [] [bad] []] =
        [Xml.mk NS32 "curveMember" [] [bad] []] := rfl
    have hext : memberChildrenTagged NS32 "curveMember" "curveMembers" "LineString"
        (.mk NS32 "MultiCurve" attrs
          (pre ++ [.mk NS32 "curveMember" [] [bad] []] ++ post) []) =
        memberChildrenTagged NS32 "curveMember" "curveMembers" "LineString"
        (.mk NS32 "MultiCurve" attrs (pre ++ post) []) := by
      simp only [memberChildrenTagged, memberChildren, Xml.children,
        List.filter_append, List.map_append, List.flatten_append, hwrap,
        List.map_cons, List.map_nil, List.flatten_cons, List.flatten_nil,
        List.append_nil, hbadf]
    simp only [parse_multi_curve]
    rw [hext]
    rfl
  · intro t₁ t₂ cs₁ cs₂ h₁ h₂
    have hm₁ : parse_linestring_or_linear_ring NS32
        (.mk NS32 "LineString" [] [.mk NS32 "posList" [] [] t₁] []) =
        .ok (.lineString cs₁, none) := (bind_ok h₁ _).trans rfl
    have hm₂ : parse_linestring_or_linear_ring NS32
        (.mk NS32 "LineString" [] [.mk NS32 "posList" [] [] t₂] []) =
        .ok (.lineString cs₂, none) := (bind_ok h₂ _).trans rfl
    have hmap₂ : mapExcept (parse_linestring_or_linear_ring NS32)
        [Xml.mk NS32 "LineString" [] [.mk NS32 "posList" [] [] t₂] []] =
        .ok [(.lineString cs₂, none)] := (bind_ok hm₂ _).trans rfl
    have hmap : mapExcept (parse_linestring_or_linear_ring NS32)
        [Xml.mk NS32 "LineString" [] [.mk NS32 "posList" [] [] t₁] [],
         Xml.mk NS32 "LineString" [] [.mk NS32 "posList" [] [] t₂] []] =
        .ok [(.lineString cs₁, none), (.lineString cs₂, none)] :=
      (bind_ok hm₁ _).trans ((bind_ok hmap₂ _).trans rfl)
    exact (bind_ok hmap _).trans rfl

/-- C5 amended witness. -/
theorem c5_member_handling_witness :
    parse_multi_curve NS32 (.mk NS32 "MultiCurve" []
        ([] ++ [.mk NS32 "curveMember" [] [.mk NS32 "Curve" [] [] []] []] ++
         [.mk NS32 "curveMember" []
           [.mk NS32 "LineString" []
             [.mk NS32 "posList" [] [] "1 2 3 4".toList] []] []]) []) =
      parse_multi_curve NS32 (.mk NS32 "MultiCurve" []
        ([] ++ [.mk NS32 "curveMember" []
           [.mk NS32 "LineString" []
             [.mk NS32 "posList" [] [] "1 2 3 4".toList] []] []]) []) ∧
    parse_multi_curve NS32 (.mk NS32 "MultiCurve" []
        [.mk NS32 "curveMember" []
          [.mk NS32 "LineString" [] [.mk NS32 "posList" [] [] "1 2".toList] []] [],
         .mk NS32 "curveMember" []
          [.mk NS32 "LineString" [] [.mk NS32 "posList" [] [] "3 4".toList] []] []] []) =
      .ok (.multiLineString [[[pn 1, pn 2]], [[pn 3, pn 4]]], none) :=
  ⟨c5_member_handling.1 [] [] _ (.mk NS32 "Curve" [] [] []) (by decide),
   c5_member_handling.2.1 "1 2".toList "3 4".toList [[pn 1, pn 2]] [[pn 3, pn 4]]
     (by rfl) (by rfl)⟩

/-- C6: on a `gml:Polygon` with exactly one `exterior/LinearRing` and no
`interior` rings, the engine revision (`v3_common.parse_polygon`)
succeeds with ring list `[exterior]` — and zero or two exteriors are
rejected — but the duplicated revision `v32._parse_polygon` fails on the
very same element with the `zip(*...)` unpacking `ValueError`, because
it lacks the length guard around the interior-ring unpacking. -/
theorem c6_polygon_zero_interiors :
    parse_polygon NS32 (.mk NS32 "Polygon" []
        [.mk NS32 "exterior" []
          [.mk NS32 "LinearRing" []
            [.mk NS32 "posList" [] [] "0 0 1 0 0 1 0 0".toList] []] []] []) =
      .ok (.polygon [[[pn 0, pn 0], [pn 1, pn 0], [pn 0, pn 1], [pn 0, pn 0]]],
        none) ∧
    parseV32F 1 (.mk NS32 "Polygon" []
        [.mk NS32 "exterior" []
          [.mk NS32 "LinearRing" []
            [.mk NS32 "posList" [] [] "0 0 1 0 0 1 0 0".toList] []] []] []) =
      .error "not enough values to unpack (expected 2, got 0)" ∧
    parse_polygon NS32 (.mk NS32 "Polygon" [] [] []) =
      .error "No gml:exterior/gml:LinearRing" ∧
    parse_polygon NS32 (.mk NS32 "Polygon" []
        [.mk NS32 "exterior" []
          [.mk NS32 "LinearRing" []
            [.mk NS32 "posList" [] [] "0 0 1 0 0 1 0 0".toList] []] [],
         .mk NS32 "exterior" []
          [.mk NS32 "LinearRing" []
            [.mk NS32 "posList" [] [] "0 0 1 0 0 1 0 0".toList] []] []] []) =
      .error "Too many gml:exterior/gml:LinearRing elements" := by
  refine ⟨by rfl, by rfl, by rfl, by rfl⟩

/-! ### Constructor preservation of the axis swap (for C7) -/

/-- Constructor discriminator for geometry data. -/
def ctorIdx : GeomData → ℕ
  | .point _ => 0
  | .multiPoint _ => 1
  | .lineString _ => 2
  | .multiLineString _ => 3
  | .polygon _ => 4
  | .multiPolygon _ => 5
  | .collection _ => 6

theorem maybe_swap_preserves {data r : GeomData} {srs : String}
    (h : maybe_swap_data data srs = .ok r) : ctorIdx r = ctorIdx data := by
  cases hyx : is_crs_yx srs with
  | error m =>
    have hred : maybe_swap_data data srs = .error m := by
      unfold maybe_swap_data; exact bind_error hyx _
    rw [hred] at h; cases h
  | ok yx =>
    cases yx with
    | false =>
      have hred : maybe_swap_data data srs = .ok data := by
        unfold maybe_swap_data; exact (bind_ok hyx _).trans rfl
      rw [hred] at h; cases h; rfl
    | true =>
      cases data with
      | collection m' =>
        have hred : maybe_swap_data (.collection m') srs =
            .error "KeyError: 'coordinates'" := by
          unfold maybe_swap_data; exact (bind_ok hyx _).trans rfl
        rw [hred] at h; cases h
      | point c =>
        have hred : maybe_swap_data (.point c) srs =
            (swap_coordinate_xy c >>= fun c' => pure (GeomData.point c')) := by
          unfold maybe_swap_data; exact (bind_ok hyx _).trans rfl
        rw [hred] at h
        cases hsw : swap_coordinate_xy c with
        | error m => rw [bind_error hsw] at h; cases h
        | ok c' => rw [bind_ok hsw] at h; cases h; rfl
      | multiPoint cs =>
        have hred : maybe_swap_data (.multiPoint cs) srs =
            (swap_coordinates_xy cs >>= fun cs' => pure (GeomData.multiPoint cs')) := by
          unfold maybe_swap_data; exact (bind_ok hyx _).trans rfl
        rw [hred] at h
        cases hsw : swap_coordinates_xy cs with
        | error m => rw [bind_error hsw] at h; cases h
        | ok cs' => rw [bind_ok hsw] at h; cases h; rfl
      | lineString cs =>
        have hred : maybe_swap_data (.lineString cs) srs =
            (swap_coordinates_xy cs >>= fun cs' => pure (GeomData.lineString cs')) := by
          unfold maybe_swap_data; exact (bind_ok hyx _).trans rfl
        rw [hred] at h
        cases hsw : swap_coordinates_xy cs with
        | error m => rw [bind_error hsw] at h; cases h
        | ok cs' => rw [bind_ok hsw] at h; cases h; rfl
      | multiLineString css =>
        have hred : maybe_swap_data (.multiLineString css) srs =
            (mapExcept swap_coordinates_xy css >>= fun css' =>
              pure (GeomData.multiLineString css')) := by
          unfold maybe_swap_data; exact (bind_ok hyx _).trans rfl
        rw [hred] at h
        cases hsw : mapExcept swap_coordinates_xy css with
        | error m => rw [bind_error hsw] at h; cases h
        | ok css' => rw [bind_ok hsw] at h; cases h; rfl
      | polygon css =>
        have hred : maybe_swap_data (.polygon css) srs =
            (mapExcept swap_coordinates_xy css >>= fun css' =>
              pure (GeomData.polygon css')) := by
          unfold maybe_swap_data; exact (bind_ok hyx _).trans rfl
        rw [hred] at h
        cases hsw : mapExcept swap_coordinates_xy css with
        | error m => rw [bind_error hsw] at h; cases h
        | ok css' => rw [bind_ok hsw] at h; cases h; rfl
      | multiPolygon csss =>
        have hred : maybe_swap_data (.multiPolygon csss) srs =
            (mapExcept (mapExcept swap_coordinates_xy) csss >>= fun csss' =>
              pure (GeomData.multiPolygon csss')) := by
          unfold maybe_swap_data; exact (bind_ok hyx _).trans rfl
        rw [hred] at h
        cases hsw : mapExcept (mapExcept swap_coordinates_xy) csss with
        | error m => rw [bind_error hsw] at h; cases h
        | ok csss' => rw [bind_ok hsw] at h; cases h; rfl

/-- C7: the 3.3-CE encoder selects the compact shape of an interior-less
polygon by its closed exterior's point count — 4 points (3 distinct plus
the closing point) give `SimpleTriangle`, 5 give `SimpleRectangle`, any
other count `SimplePolygon` — emitting the `posList` without the closing
point; a polygon with interior rings, and every other (non-collection)
geometry type, is encoded exactly as by the standard 3.2 encoder. -/
theorem c7_v33_shape_selection :
    (∀ (ext : Coordinates) (attrs : List (String × String)),
      ext ≠ [] → ext.head? = ext.getLast? →
      ((ext.length = 4 → encode_polygon_v33 [ext] attrs =
          .ok (.mk NS33 "SimpleTriangle" attrs
            [encode_pos_list NS32 ext.dropLast] [])) ∧
       (ext.length = 5 → encode_polygon_v33 [ext] attrs =
          .ok (.mk NS33 "SimpleRectangle" attrs
            [encode_pos_list NS32 ext.dropLast] [])) ∧
       (ext.length ≠ 4 → ext.length ≠ 5 → encode_polygon_v33 [ext] attrs =
          .ok (.mk NS33 "SimplePolygon" attrs
            [encode_pos_list NS32 ext.dropLast] [])))) ∧
    (∀ (ext : Coordinates) (ints : List Coordinates)
        (attrs : List (String × String)), ints ≠ [] →
      encode_polygon_v33 (ext :: ints) attrs =
        encode_polygon_std NS32 (ext :: ints) attrs) ∧
    (∀ (g : GeomObj) (identifier : Option String),
      (match g.data with
       | .polygon _ => False
       | .collection _ => False
       | _ => True) →
      encodeV33 g identifier = encodeStd32 g identifier) := by
  refine ⟨?_, ?_, ?_⟩
  · intro ext attrs _ _
    refine ⟨?_, ?_, ?_⟩
    · intro h4
      simp [encode_polygon_v33, h4]
      rfl
    · intro h5
      simp [encode_polygon_v33, h5]
      rfl
    · intro h4 h5
      simp [encode_polygon_v33, h4, h5]
      rfl
  · intro ext ints attrs hne
    cases ints with
    | nil => exact absurd rfl hne
    | cons i is' => rfl
  · intro g identifier hnp
    obtain ⟨data, crs, bbox⟩ := g
    unfold encodeV33 encodeStd32 encodeCommon
    by_cases hid : idFalsy identifier = true
    · have hcond : (idFalsy identifier && true) = true := by simp [hid]
      rw [if_pos hcond, if_pos hcond]
    · have hcond : ¬ ((idFalsy identifier && true) = true) := by
        simpa using hid
      rw [if_neg hcond, if_neg hcond]
      cases data with
      | collection m => exact hnp.elim
      | polygon css => exact hnp.elim
      | point c =>
        dsimp only
        cases hsw : maybe_swap_data (GeomData.point c)
            (crs.getD "urn:ogc:def:crs:OGC::CRS84") with
        | error m => rfl
        | ok r =>
          have hc := maybe_swap_preserves hsw
          cases r <;> try rfl
          all_goals simp [ctorIdx] at hc
      | multiPoint cs =>
        dsimp only
        cases hsw : maybe_swap_data (GeomData.multiPoint cs)
            (crs.getD "urn:ogc:def:crs:OGC::CRS84") with
        | error m => rfl
        | ok r =>
          have hc := maybe_swap_preserves hsw
          cases r <;> try rfl
          all_goals simp [ctorIdx] at hc
      | lineString cs =>
        dsimp only
        cases hsw : maybe_swap_data (GeomData.lineString cs)
            (crs.getD "urn:ogc:def:crs:OGC::CRS84") with
        | error m => rfl
        | ok r =>
          have hc := maybe_swap_preserves hsw
          cases r <;> try rfl
          all_goals simp [ctorIdx] at hc
      | multiLineString css =>
        dsimp only
        cases hsw : maybe_swap_data (GeomData.multiLineString css)
            (crs.getD "urn:ogc:def:crs:OGC::CRS84") with
        | error m => rfl
        | ok r =>
          have hc := maybe_swap_preserves hsw
          cases r <;> try rfl
          all_goals simp [ctorIdx] at hc
      | multiPolygon csss =>
        dsimp only
        cases hsw : maybe_swap_data (GeomData.multiPolygon csss)
            (crs.getD "urn:ogc:def:crs:OGC::CRS84") with
        | error m => rfl
        | ok r =>
          have hc := maybe_swap_preserves hsw
          cases r <;> try rfl
          all_goals simp [ctorIdx] at hc

/-- C7 witness: the claim's closed triangle and rectangle rings, an
11-point ring, a holed polygon, and a point falling back to the 3.2
encoding. -/
theorem c7_v33_shape_selection_witness :
    encode_polygon_v33 [[[pn 1, pn 2], [pn 1, pn 3], [pn 2, pn 2], [pn 1, pn 2]]] [] =
      .ok (.mk NS33 "SimpleTriangle" []
        [encode_pos_list NS32 [[pn 1, pn 2], [pn 1, pn 3], [pn 2, pn 2]]] []) ∧
    encode_polygon_v33
        [[[pn 1, pn 2], [pn 1, pn 3], [pn 2, pn 3], [pn 2, pn 2], [pn 1, pn 2]]] [] =
      .ok (.mk NS33 "SimpleRectangle" []
        [encode_pos_list NS32
          [[pn 1, pn 2], [pn 1, pn 3], [pn 2, pn 3], [pn 2, pn 2]]] []) ∧
    encode_polygon_v33 [[[pn 0, pn 0], [pn 1, pn 0], [pn 1, pn 1], [pn 0, pn 0],
        [pn 0, pn 2], [pn 2, pn 2], [pn 0, pn 0]]] [] =
      .ok (.mk NS33 "SimplePolygon" []
        [encode_pos_list NS32 [[pn 0, pn 0], [pn 1, pn 0], [pn 1, pn 1],
          [pn 0, pn 0], [pn 0, pn 2], [pn 2, pn 2]]] []) ∧
    encode_polygon_v33
        [[[pn 0, pn 0], [pn 1, pn 0], [pn 1, pn 1], [pn 0, pn 0]],
         [[pn 2, pn 2], [pn 3, pn 2], [pn 3, pn 3], [pn 2, pn 2]]] [] =
      encode_polygon_std NS32
        [[[pn 0, pn 0], [pn 1, pn 0], [pn 1, pn 1], [pn 0, pn 0]],
         [[pn 2, pn 2], [pn 3, pn 2], [pn 3, pn 3], [pn 2, pn 2]]] [] ∧
    encodeV33 (bare (.point [pn 1, pn 2])) (some "ID") =
      encodeStd32 (bare (.point [pn 1, pn 2])) (some "ID") :=
  ⟨(c7_v33_shape_selection.1 _ [] (by decide) (by decide)).1 (by decide),
   (c7_v33_shape_selection.1 _ [] (by decide) (by decide)).2.1 (by decide),
   (c7_v33_shape_selection.1 _ [] (by decide) (by decide)).2.2 (by decide) (by decide),
   c7_v33_shape_selection.2.1 _ _ [] (by decide),
   c7_v33_shape_selection.2.2 _ (some "ID") trivial⟩

/-- C9 counterexample: parsing a `MultiGeometry` whose container carries
a latitude-first `srsName` (`EPSG:4326`) does not yield a
`GeometryCollection` — the engine's collection-level swap attempt hits
the collection's missing `coordinates` member and the parse fails with a
`KeyError`. -/
theorem c9_counterexample :
    parseV33F 10 (.mk NS32 "MultiGeometry" [("srsName", "EPSG:4326")]
      [.mk NS32 "geometryMembers" []
        [.mk NS32 "Point" [] [.mk NS32 "pos" [] [] "1.0 2.0".toList] []] []] []) =
      .error "KeyError: 'coordinates'" := by
  rfl

/-- C9 amended: the members of a `MultiGeometry` are each parsed with the
engine's own generic entry point, and the container's `srsName` never
reaches them; the container `srsName`, when present and non-latitude-
first, is attached to the collection itself; with no `srsName` the bare
collection is returned; and a latitude-first container `srsName` makes
the whole parse fail (`KeyError` from the collection-level swap). -/
theorem c9_multi_geometry_srs :
    (∀ (p : Xml → Except String GeomObj) (attrs : List (String × String))
        (children : List Xml) (gs : List GeomObj),
      mapExcept p (memberChildren NS32 "geometryMember" "geometryMembers"
          (.mk NS32 "MultiGeometry" attrs children [])) = .ok gs →
      parse_multi_geometry p NS32 (.mk NS32 "MultiGeometry" attrs children []) =
        .ok (.collection (GeomList.ofList gs), lookupStr "srsName" attrs)) ∧
    (∀ (fuel : ℕ) (attrs : List (String × String)) (children : List Xml)
        (gs : List GeomObj),
      mapExcept (parseV33F fuel) (memberChildren NS32 "geometryMember"
          "geometryMembers" (.mk NS32 "MultiGeometry" attrs children [])) =
        .ok gs →
      (lookupStr "srsName" attrs = none →
        parseV33F (fuel + 1) (.mk NS32 "MultiGeometry" attrs children []) =
          .ok (bare (.collection (GeomList.ofList gs)))) ∧
      (∀ s, lookupStr "srsName" attrs = some s → s ≠ "" →
        is_crs_yx s = .ok true →
        parseV33F (fuel + 1) (.mk NS32 "MultiGeometry" attrs children []) =
          .error "KeyError: 'coordinates'") ∧
      (∀ s, lookupStr "srsName" attrs = some s → s ≠ "" →
        is_crs_yx s = .ok false →
        parseV33F (fuel + 1) (.mk NS32 "MultiGeometry" attrs children []) =
          .ok (.mk (.collection (GeomList.ofList gs)) (some s) none))) := by
  constructor
  · intro p attrs children gs h
    exact (bind_ok h _).trans rfl
  · intro fuel attrs children gs h
    refine ⟨?_, ?_, ?_⟩
    · intro hattr
      have hpm : parse_multi_geometry (parseV33F fuel) NS32
          (.mk NS32 "MultiGeometry" attrs children []) =
          .ok (.collection (GeomList.ofList gs), none) := by
        refine (bind_ok h _).trans ?_
        exact congrArg (fun o =>
          Except.ok (GeomData.collection (GeomList.ofList gs), o)) hattr
      exact (bind_ok hpm _).trans rfl
    · intro s hattr hs0 hyx
      have hpm : parse_multi_geometry (parseV33F fuel) NS32
          (.mk NS32 "MultiGeometry" attrs children []) =
          .ok (.collection (GeomList.ofList gs), some s) := by
        refine (bind_ok h _).trans ?_
        exact congrArg (fun o =>
          Except.ok (GeomData.collection (GeomList.ofList gs), o)) hattr
      refine (bind_ok hpm _).trans ?_
      show engineFinish (.collection (GeomList.ofList gs), some s) = _
      unfold engineFinish
      dsimp only
      rw [if_neg hs0]
      have hsw : maybe_swap_data (GeomData.collection (GeomList.ofList gs)) s =
          .error "KeyError: 'coordinates'" := by
        unfold maybe_swap_data
        exact (bind_ok hyx _).trans rfl
      exact bind_error hsw _
    · intro s hattr hs0 hyx
      have hpm : parse_multi_geometry (parseV33F fuel) NS32
          (.mk NS32 "MultiGeometry" attrs children []) =
          .ok (.collection (GeomList.ofList gs), some s) := by
        refine (bind_ok h _).trans ?_
        exact congrArg (fun o =>
          Except.ok (GeomData.collection (GeomList.ofList gs), o)) hattr
      refine (bind_ok hpm _).trans ?_
      show engineFinish (.collection (GeomList.ofList gs), some s) = _
      unfold engineFinish
      dsimp only
      rw [if_neg hs0]
      have hsw : maybe_swap_data (GeomData.collection (GeomList.ofList gs)) s =
          .ok (.collection (GeomList.ofList gs)) := by
        unfold maybe_swap_data
        exact (bind_ok hyx _).trans rfl
      exact (bind_ok hsw _).trans rfl

/-- C9 witness: one Point member; a container without `srsName`, one
with the non-latitude-first `EPSG:3857`, and one with the latitude-first
`EPSG:4326`. -/
theorem c9_multi_geometry_srs_witness :
    parse_multi_geometry (parseV33F 9) NS32 (.mk NS32 "MultiGeometry" []
        [.mk NS32 "geometryMembers" []
          [.mk NS32 "Point" [] [.mk NS32 "pos" [] [] "1.0 2.0".toList] []] []] []) =
      .ok (.collection (GeomList.ofList [bare (.point [pn 1, pn 2])]), none) ∧
    parseV33F 10 (.mk NS32 "MultiGeometry" []
        [.mk NS32 "geometryMembers" []
          [.mk NS32 "Point" [] [.mk NS32 "pos" [] [] "1.0 2.0".toList] []] []] []) =
      .ok (bare (.collection (GeomList.ofList [bare (.point [pn 1, pn 2])]))) ∧
    parseV33F 10 (.mk NS32 "MultiGeometry" [("srsName", "EPSG:4326")]
        [.mk NS32 "geometryMembers" []
          [.mk NS32 "Point" [] [.mk NS32 "pos" [] [] "1.0 2.0".toList] []] []] []) =
      .error "KeyError: 'coordinates'" ∧
    parseV33F 10 (.mk NS32 "MultiGeometry" [("srsName", "EPSG:3857")]
        [.mk NS32 "geometryMembers" []
          [.mk NS32 "Point" [] [.mk NS32 "pos" [] [] "1.0 2.0".toList] []] []] []) =
      .ok (.mk (.collection (GeomList.ofList [bare (.point [pn 1, pn 2])]))
        (some "EPSG:3857") none) :=
  ⟨c9_multi_geometry_srs.1 (parseV33F 9) [] _ [bare (.point [pn 1, pn 2])] (by rfl),
   (c9_multi_geometry_srs.2 9 [] _ [bare (.point [pn 1, pn 2])] (by rfl)).1 rfl,
   ((c9_multi_geometry_srs.2 9 [("srsName", "EPSG:4326")] _
      [bare (.point [pn 1, pn 2])] (by rfl)).2).1 "EPSG:4326" rfl (by decide) (by rfl),
   ((c9_multi_geometry_srs.2 9 [("srsName", "EPSG:3857")] _
      [bare (.point [pn 1, pn 2])] (by rfl)).2).2 "EPSG:3857" rfl (by decide) (by rfl)⟩

/-- C8 counterexample: a 3-dimensional Point without CRS falls back to
`georss:where`, but the wrapped element is produced by the *pre-3.2*
encoder (legacy `http://www.opengis.net/gml` namespace), not the GML 3.2
encoder; and an unrecognized CRS raises `Unrecognized SRS format`
instead of falling back to a `where` wrapper. -/
theorem c8_counterexample :
    encode_georss_default (bare (.point [pn 1, pn 2, pn 1])) =
      .ok (.mk NSGEORSS "where" []
        [.mk NSPRE32 "Point" [("srsName", "urn:ogc:def:crs:OGC::CRS84"),
          (idAttrKey NSPRE32, "ID")]
          [.mk NSPRE32 "pos" [] [] "1.0 2.0 1.0".toList] []] []) ∧
    encode_georss_default (bare (.point [pn 1, pn 2, pn 1])) ≠
      Except.map (fun x => Xml.mk NSGEORSS "where" [] [x] [])
        (encodeStd32 (bare (.point [pn 1, pn 2, pn 1])) (some "ID")) ∧
    encode_georss_default (.mk (.point [pn 1, pn 2]) (some "abcd") none) =
      .error "Unrecognized SRS format: abcd" := by
  refine ⟨rfl, ?_, rfl⟩
  intro h
  exact absurd (congrArg (fun r => Except.toOption
    (Except.map (fun x => x.children.map Xml.ns) r)) h) (by decide)

/-- C8 amended: `encode_georss` emits a native `point`/`line`/`polygon`
element exactly when the CRS code is absent/4326/CRS84, the geometry is
2-dimensional and its type is Point, LineString or single-ring Polygon;
when the eligibility condition fails, or the type is unsuitable, it wraps
the supplied `gml_encoder`'s output (at the fixed identifier `ID`) in
`georss:where`; an unrecognized CRS propagates as an error; and the
default `gml_encoder` is `encode_pre_v32`, the generic encoder on the
legacy GML namespace — not the 3.2 encoder. -/
theorem c8_georss_encoding :
    (∀ (x y : PyNum) (crs : Option String) (bbox : Option (List PyNum))
        (enc : GeomObj → String → Except String Xml) (code : Option CrsCode),
      crs_code_of crs = .ok code → codeEligible code = true →
      encode_georss (.mk (.point [x, y]) crs bbox) enc =
        .ok (georssEl "point" (sjoin ([y, x].map pyStr)))) ∧
    (∀ (cs cs' : Coordinates) (crs : Option String) (bbox : Option (List PyNum))
        (enc : GeomObj → String → Except String Xml) (code : Option CrsCode),
      crs_code_of crs = .ok code → codeEligible code = true →
      get_dimensionality (.mk (.lineString cs) crs bbox) = .ok (some 2) →
      swap_coordinates_xy cs = .ok cs' →
      encode_georss (.mk (.lineString cs) crs bbox) enc =
        .ok (georssEl "line" (sjoin (cs'.map (fun c => sjoin (c.map pyStr)))))) ∧
    (∀ (ext ext' : Coordinates) (crs : Option String) (bbox : Option (List PyNum))
        (enc : GeomObj → String → Except String Xml) (code : Option CrsCode),
      crs_code_of crs = .ok code → codeEligible code = true →
      get_dimensionality (.mk (.polygon [ext]) crs bbox) = .ok (some 2) →
      swap_coordinates_xy ext = .ok ext' →
      encode_georss (.mk (.polygon [ext]) crs bbox) enc =
        .ok (georssEl "polygon" (sjoin (ext'.map (fun c => sjoin (c.map pyStr)))))) ∧
    (∀ (g : GeomObj) (enc : GeomObj → String → Except String Xml)
        (code : Option CrsCode) (dims : Option ℕ) (x : Xml),
      get_dimensionality g = .ok dims → crs_code_of g.crs = .ok code →
      ¬(codeEligible code = true ∧ dims = some 2) →
      enc g "ID" = .ok x →
      encode_georss g enc = .ok (.mk NSGEORSS "where" [] [x] [])) ∧
    (∀ (cs : Coordinates) (crs : Option String) (bbox : Option (List PyNum))
        (enc : GeomObj → String → Except String Xml) (code : Option CrsCode)
        (dims : Option ℕ) (x : Xml),
      get_dimensionality (.mk (.multiPoint cs) crs bbox) = .ok dims →
      crs_code_of crs = .ok code →
      enc (.mk (.multiPoint cs) crs bbox) "ID" = .ok x →
      encode_georss (.mk (.multiPoint cs) crs bbox) enc =
        .ok (.mk NSGEORSS "where" [] [x] [])) ∧
    (∀ (r₁ r₂ : Coordinates) (rs : List Coordinates) (crs : Option String)
        (bbox : Option (List PyNum)) (enc : GeomObj → String → Except String Xml)
        (code : Option CrsCode) (dims : Option ℕ) (x : Xml),
      get_dimensionality (.mk (.polygon (r₁ :: r₂ :: rs)) crs bbox) = .ok dims →
      crs_code_of crs = .ok code →
      enc (.mk (.polygon (r₁ :: r₂ :: rs)) crs bbox) "ID" = .ok x →
      encode_georss (.mk (.polygon (r₁ :: r₂ :: rs)) crs bbox) enc =
        .ok (.mk NSGEORSS "where" [] [x] [])) ∧
    (∀ (g : GeomObj) (dims : Option ℕ) (name msg : String)
        (enc : GeomObj → String → Except String Xml),
      get_dimensionality g = .ok dims → g.crs = some name →
      get_crs_code name = .error msg →
      encode_georss g enc = .error msg) ∧
    (∀ g, encode_georss_default g = encode_georss g encode_pre_v32) ∧
    (∀ g i, encode_pre_v32 g i =
      encodeCommon NSPRE32 false (encode_polygon_std NSPRE32) g (some i)) := by
  refine ⟨?_, ?_, ?_, ?_, ?_, ?_, ?_, fun _ => rfl, fun _ _ => rfl⟩
  · intro x y crs bbox enc code hcode helig
    unfold encode_georss
    have hdim : get_dimensionality (GeomObj.mk (.point [x, y]) crs bbox) =
        .ok (some 2) := rfl
    refine (bind_ok hdim _).trans ?_
    refine (bind_ok hcode _).trans ?_
    dsimp only
    rw [if_pos ⟨helig, rfl⟩]
    rfl
  · intro cs cs' crs bbox enc code hcode helig hdim hswap
    unfold encode_georss
    refine (bind_ok hdim _).trans ?_
    refine (bind_ok hcode _).trans ?_
    dsimp only
    rw [if_pos ⟨helig, rfl⟩]
    exact (bind_ok hswap _).trans rfl
  · intro ext ext' crs bbox enc code hcode helig hdim hswap
    unfold encode_georss
    refine (bind_ok hdim _).trans ?_
    refine (bind_ok hcode _).trans ?_
    dsimp only
    rw [if_pos ⟨helig, rfl⟩]
    exact (bind_ok hswap _).trans rfl
  · intro g enc code dims x hdim hcode hcond henc
    unfold encode_georss
    refine (bind_ok hdim _).trans ?_
    refine (bind_ok hcode _).trans ?_
    dsimp only
    rw [if_neg hcond]
    exact (bind_ok henc _).trans rfl
  · intro cs crs bbox enc code dims x hdim hcode henc
    unfold encode_georss
    refine (bind_ok hdim _).trans ?_
    refine (bind_ok hcode _).trans ?_
    dsimp only
    by_cases hc : codeEligible code = true ∧ dims = some 2
    · rw [if_pos hc]
      exact (bind_ok henc _).trans rfl
    · rw [if_neg hc]
      exact (bind_ok henc _).trans rfl
  · intro r₁ r₂ rs crs bbox enc code dims x hdim hcode henc
    unfold encode_georss
    refine (bind_ok hdim _).trans ?_
    refine (bind_ok hcode _).trans ?_
    dsimp only
    by_cases hc : codeEligible code = true ∧ dims = some 2
    · rw [if_pos hc]
      exact (bind_ok henc _).trans rfl
    · rw [if_neg hc]
      exact (bind_ok henc _).trans rfl
  · intro g dims name msg enc hdim hname herr
    unfold encode_georss
    refine (bind_ok hdim _).trans ?_
    have hcc : crs_code_of g.crs = .error msg := by
      rw [hname]
      show get_crs_code name >>= (fun c => pure (some c)) = _
      exact bind_error herr _
    exact bind_error hcc _

/-- C8 witness: a 2-dimensional CRS-less Point encodes natively; the
same Point with 3 components falls back to a `where` wrapping the
pre-3.2 output; an unrecognized CRS name errors. -/
theorem c8_georss_encoding_witness :
    encode_georss (bare (.point [pn 1, pn 2])) encode_pre_v32 =
      .ok (georssEl "point" (sjoin ([pn 2, pn 1].map pyStr))) ∧
    encode_georss (bare (.point [pn 1, pn 2, pn 3])) encode_pre_v32 =
      .ok (.mk NSGEORSS "where" []
        [.mk NSPRE32 "Point" [("srsName", "urn:ogc:def:crs:OGC::CRS84"),
          (idAttrKey NSPRE32, "ID")]
          [.mk NSPRE32 "pos" [] [] "1.0 2.0 3.0".toList] []] []) ∧
    encode_georss (.mk (.point [pn 1, pn 2]) (some "abcd") none)
        encode_pre_v32 =
      .error "Unrecognized SRS format: abcd" :=
  ⟨c8_georss_encoding.1 (pn 1) (pn 2) none none encode_pre_v32 none rfl rfl,
   c8_georss_encoding.2.2.2.1 (bare (.point [pn 1, pn 2, pn 3]))
     encode_pre_v32 none (some 3)
     (.mk NSPRE32 "Point" [("srsName", "urn:ogc:def:crs:OGC::CRS84"),
       (idAttrKey NSPRE32, "ID")]
       [.mk NSPRE32 "pos" [] [] "1.0 2.0 3.0".toList] [])
     rfl rfl (by decide) rfl,
   c8_georss_encoding.2.2.2.2.2.2.1
     (.mk (.point [pn 1, pn 2]) (some "abcd") none) (some 2) "abcd"
     "Unrecognized SRS format: abcd" encode_pre_v32 rfl rfl rfl⟩

/-- C10: a LineString of all-3-component coordinates encodes to a
flattened `posList` without attributes (in particular no
`srsDimension`), and re-parsing the encoded element splits that text at
the parser's default dimension 2: with an odd total component count the
parse fails the divisibility check, and with an even one it returns
2-component pairs — never the original 3-component coordinates. -/
theorem c10_3d_poslist_lossy :
    ∀ (cs : Coordinates) (id : String), cs ≠ [] →
      (∀ c ∈ cs, c.length = 3) → (∀ q ∈ cs.flatten, goodNum q = true) →
      id ≠ "" →
      encodeStd32 (bare (.lineString cs)) (some id) =
        .ok (encode_line_string_el NS32 cs
          [("srsName", "urn:ogc:def:crs:OGC::CRS84"), (idAttrKey NS32, id)]) ∧
      ((encode_pos_list NS32 cs).attrs = [] ∧
        encode_line_string_el NS32 cs
            [("srsName", "urn:ogc:def:crs:OGC::CRS84"), (idAttrKey NS32, id)] =
          .mk NS32 "LineString"
            [("srsName", "urn:ogc:def:crs:OGC::CRS84"), (idAttrKey NS32, id)]
            [.mk NS32 "posList" [] [] (posListText cs)] []) ∧
      (∀ fuel : ℕ, cs.length % 2 = 1 →
        parseV32F (fuel + 1) (encode_line_string_el NS32 cs
            [("srsName", "urn:ogc:def:crs:OGC::CRS84"), (idAttrKey NS32, id)]) =
          .error "Invalid dimensionality of pos list") ∧
      (∀ fuel : ℕ, cs.length % 2 = 0 →
        parseV32F (fuel + 1) (encode_line_string_el NS32 cs
            [("srsName", "urn:ogc:def:crs:OGC::CRS84"), (idAttrKey NS32, id)]) =
          .ok (.mk (.lineString (chunk 2 cs.flatten))
            (some "urn:ogc:def:crs:OGC::CRS84") none) ∧
        (∀ g ∈ chunk 2 cs.flatten, g.length = 2) ∧
        chunk 2 cs.flatten ≠ cs) := by
  intro cs id hne0 h3 hg hid0
  have hne : ∀ c ∈ cs, c ≠ [] := by
    intro c hc h0
    have h1 := h3 c hc
    rw [h0] at h1
    simp at h1
  have hflat : cs.flatten.length = 3 * cs.length := flatten_length_const cs h3
  have hf : idFalsy (some id) = false := by
    simp only [idFalsy, beq_eq_false_iff_ne, ne_eq]
    exact hid0
  refine ⟨?_, ⟨rfl, rfl⟩, ?_, ?_⟩
  · show encodeCommon NS32 true (encode_polygon_std NS32)
      (GeomObj.mk (.lineString cs) none none) (some id) = _
    unfold encodeCommon
    have hcond : ¬ ((idFalsy (some id) && true) = true) := by simp [hf]
    rw [if_neg hcond]
    dsimp only
    have hsw : maybe_swap_data (.lineString cs) "urn:ogc:def:crs:OGC::CRS84" =
        .ok (.lineString cs) := rfl
    refine (bind_ok hsw _).trans ?_
    simp only [hf, Bool.false_eq_true, if_false]
    rfl
  · intro fuel hodd
    have hmod : cs.flatten.length % 2 = 1 := by rw [hflat]; omega
    have hpl : parse_poslist (posListText cs) 2 =
        .error "Invalid dimensionality of pos list" := by
      rw [parse_poslist_print hne hg 2, if_neg (by norm_num), if_pos (by omega)]
    have hls : parse_linestring_v32 (encode_line_string_el NS32 cs
        [("srsName", "urn:ogc:def:crs:OGC::CRS84"), (idAttrKey NS32, id)]) =
        .error "Invalid dimensionality of pos list" := bind_error hpl _
    show parse_linestring_v32 (encode_line_string_el NS32 cs
        [("srsName", "urn:ogc:def:crs:OGC::CRS84"), (idAttrKey NS32, id)]) >>=
      engineFinish = _
    exact bind_error hls _
  · intro fuel heven
    have hdvd : 2 ∣ cs.flatten.length := by rw [hflat]; omega
    have hmod : cs.flatten.length % 2 = 0 := Nat.mod_eq_zero_of_dvd hdvd
    have hs : determine_srs [lookupStr "srsName"
        [("srsName", "urn:ogc:def:crs:OGC::CRS84"), (idAttrKey NS32, id)], none] =
        .ok (some "urn:ogc:def:crs:OGC::CRS84") := rfl
    have hls := parse_linestring_v32_print hne hg hmod hs
    refine ⟨?_, ?_, ?_⟩
    · show parse_linestring_v32 (encode_line_string_el NS32 cs
          [("srsName", "urn:ogc:def:crs:OGC::CRS84"), (idAttrKey NS32, id)]) >>=
        engineFinish = _
      refine (bind_ok hls _).trans ?_
      show engineFinish (.lineString (chunk 2 cs.flatten),
        some "urn:ogc:def:crs:OGC::CRS84") = _
      unfold engineFinish
      dsimp only
      rw [if_neg (by decide : ¬(("urn:ogc:def:crs:OGC::CRS84" : String) = ""))]
      have hsw : maybe_swap_data (.lineString (chunk 2 cs.flatten))
          "urn:ogc:def:crs:OGC::CRS84" = .ok (.lineString (chunk 2 cs.flatten)) := rfl
      exact (bind_ok hsw _).trans rfl
    · intro g hgmem
      exact chunkF_group_length (by norm_num) cs.flatten.length cs.flatten
        (le_refl _) hdvd g hgmem
    · intro hEq
      obtain ⟨c₀, rest, rfl⟩ : ∃ c₀ rest, cs = c₀ :: rest := by
        cases cs with
        | nil => exact absurd rfl hne0
        | cons a l => exact ⟨a, l, rfl⟩
      have hmem : c₀ ∈ chunk 2 (c₀ :: rest).flatten := by
        rw [hEq]
        exact List.mem_cons_self ..
      have h2 : c₀.length = 2 := chunkF_group_length (by norm_num) _ _
        (le_refl _) hdvd c₀ hmem
      have h3' : c₀.length = 3 := h3 c₀ (List.mem_cons_self ..)
      omega

/-- C10 witness: the two-point 3D LineString `[(1,2,3),(4,5,6)]` encodes
to a bare `posList` and re-parses as the three 2D pairs
`[(1,2),(3,4),(5,6)]`; the one-point 3D LineString `[(1,2,3)]` fails the
divisibility check on re-parse. -/
theorem c10_3d_poslist_lossy_witness :
    encodeStd32 (bare (.lineString [[pn 1, pn 2, pn 3], [pn 4, pn 5, pn 6]]))
        (some "ID") =
      .ok (encode_line_string_el NS32 [[pn 1, pn 2, pn 3], [pn 4, pn 5, pn 6]]
        [("srsName", "urn:ogc:def:crs:OGC::CRS84"), (idAttrKey NS32, "ID")]) ∧
    parseV32F 1 (encode_line_string_el NS32 [[pn 1, pn 2, pn 3]]
        [("srsName", "urn:ogc:def:crs:OGC::CRS84"), (idAttrKey NS32, "ID")]) =
      .error "Invalid dimensionality of pos list" ∧
    parseV32F 1 (encode_line_string_el NS32 [[pn 1, pn 2, pn 3], [pn 4, pn 5, pn 6]]
        [("srsName", "urn:ogc:def:crs:OGC::CRS84"), (idAttrKey NS32, "ID")]) =
      .ok (.mk (.lineString [[pn 1, pn 2], [pn 3, pn 4], [pn 5, pn 6]])
        (some "urn:ogc:def:crs:OGC::CRS84") none) ∧
    [[pn 1, pn 2], [pn 3, pn 4], [pn 5, pn 6]] ≠
      [[pn 1, pn 2, pn 3], [pn 4, pn 5, pn 6]] :=
  ⟨(c10_3d_poslist_lossy [[pn 1, pn 2, pn 3], [pn 4, pn 5, pn 6]] "ID"
      (by decide) (by decide) (by decide) (by decide)).1,
   (c10_3d_poslist_lossy [[pn 1, pn 2, pn 3]] "ID"
      (by decide) (by decide) (by decide) (by decide)).2.2.1 0 rfl,
   ((c10_3d_poslist_lossy [[pn 1, pn 2, pn 3], [pn 4, pn 5, pn 6]] "ID"
      (by decide) (by decide) (by decide) (by decide)).2.2.2 0 rfl).1,
   ((c10_3d_poslist_lossy [[pn 1, pn 2, pn 3], [pn 4, pn 5, pn 6]] "ID"
      (by decide) (by decide) (by decide) (by decide)).2.2.2 0 rfl).2.2⟩

/-- C1 counterexample: the encode-then-parse round trip fails outright
for a CRS-less 2D MultiPoint (the encoder writes `geometryMembers`, the
parser looks for `pointMember(s)` and unpacking the empty member list
raises) and for a 2D Polygon with no interior rings under the 3.2
dialect (`_parse_polygon`'s interior unpack raises on zero interiors);
even where the round trip parses, the result carries a gained `crs`
member, so it is not equal to the original geometry. -/
theorem c1_counterexample :
    encodeV32 (bare (.multiPoint [[pn 1, pn 1], [pn 2, pn 2]])) "ID" >>=
      parseV32F 10 = .error "not enough values to unpack (expected 2, got 0)" ∧
    encodeV32 (bare (.polygon [[[pn 0, pn 0], [pn 1, pn 0], [pn 0, pn 1],
        [pn 0, pn 0]]])) "ID" >>= parseV32F 10 =
      .error "not enough values to unpack (expected 2, got 0)" ∧
    encodeV32 (bare (.point [pn 1, pn 1])) "ID" >>= parseV32F 10 =
      .ok (withCrs84 (.point [pn 1, pn 1])) ∧
    withCrs84 (.point [pn 1, pn 1]) ≠ bare (.point [pn 1, pn 1]) := by
  refine ⟨rfl, rfl, rfl, ?_⟩
  intro h
  have h2 : (some "urn:ogc:def:crs:OGC::CRS84" : Option String) = none :=
    congrArg GeomObj.crs h
  exact Option.noConfusion h2

/-- C1 amended: for Point and LineString geometries without CRS and with
well-printing coordinates (2-dimensional where the `posList` regrouping
demands it), encode-then-parse succeeds in the 3.2, 3.3-CE and pre-3.2
dialects — but returns the geometry with the default CRS84 descriptor
attached, never the original CRS-less value. -/
theorem c1_roundtrip_crs_gained :
    (∀ d : GeomData, (withCrs84 d).crs = some "urn:ogc:def:crs:OGC::CRS84" ∧
      (bare d).crs = none) ∧
    (∀ (c : Coordinate) (id : String) (fuel : ℕ),
      (∀ q ∈ c, goodNum q = true) →
      encodeV32 (bare (.point c)) id >>= parseV32F (fuel + 1) =
        .ok (withCrs84 (.point c))) ∧
    (∀ (cs : Coordinates) (id : String) (fuel : ℕ),
      (∀ c ∈ cs, c.length = 2) → (∀ q ∈ cs.flatten, goodNum q = true) →
      encodeV32 (bare (.lineString cs)) id >>= parseV32F (fuel + 1) =
        .ok (withCrs84 (.lineString cs))) ∧
    (∀ (c : Coordinate) (id : String) (fuel : ℕ),
      (∀ q ∈ c, goodNum q = true) → id ≠ "" →
      encodeStd32 (bare (.point c)) (some id) >>= parseV33F (fuel + 1) =
        .ok (withCrs84 (.point c))) ∧
    (∀ (cs : Coordinates) (id : String) (fuel : ℕ),
      (∀ c ∈ cs, c.length = 2) → (∀ q ∈ cs.flatten, goodNum q = true) →
      id ≠ "" →
      encodeStd32 (bare (.lineString cs)) (some id) >>= parseV33F (fuel + 1) =
        .ok (withCrs84 (.lineString cs))) ∧
    (∀ (c : Coordinate) (id : String) (fuel : ℕ),
      (∀ q ∈ c, goodNum q = true) → id ≠ "" →
      encode_pre_v32 (bare (.point c)) id >>= parsePre32F (fuel + 1) =
        .ok (withCrs84 (.point c))) := by
  refine ⟨fun d => ⟨rfl, rfl⟩, ?_, ?_, ?_, ?_, ?_⟩
  · intro c id fuel hg
    show encodeV32 (GeomObj.mk (.point c) none none) id >>= parseV32F (fuel + 1) =
      .ok (GeomObj.mk (.point c) (some "urn:ogc:def:crs:OGC::CRS84") none)
    have henc : encodeV32 (GeomObj.mk (.point c) none none) id =
        .ok (encode_point_el NS32 c [("srsName", "urn:ogc:def:crs:OGC::CRS84"),
          (idAttrKey NS32, id)]) := by
      unfold encodeV32
      dsimp only
      have hsw : maybe_swap_data (.point c) "urn:ogc:def:crs:OGC::CRS84" =
          .ok (.point c) := rfl
      exact (bind_ok hsw _).trans rfl
    refine (bind_ok henc _).trans ?_
    show parse_point_v32 (encode_point_el NS32 c
        [("srsName", "urn:ogc:def:crs:OGC::CRS84"), (idAttrKey NS32, id)]) >>=
      engineFinish = _
    have hp : parse_point_v32 (encode_point_el NS32 c
        [("srsName", "urn:ogc:def:crs:OGC::CRS84"), (idAttrKey NS32, id)]) =
        .ok (.point c, some "urn:ogc:def:crs:OGC::CRS84") :=
      parse_point_v32_print hg rfl
    refine (bind_ok hp _).trans ?_
    show engineFinish (.point c, some "urn:ogc:def:crs:OGC::CRS84") = _
    unfold engineFinish
    dsimp only
    rw [if_neg (by decide : ¬(("urn:ogc:def:crs:OGC::CRS84" : String) = ""))]
    have hsw2 : maybe_swap_data (.point c) "urn:ogc:def:crs:OGC::CRS84" =
        .ok (.point c) := rfl
    exact (bind_ok hsw2 _).trans rfl
  · intro cs id fuel h2 hg
    show encodeV32 (GeomObj.mk (.lineString cs) none none) id >>=
        parseV32F (fuel + 1) =
      .ok (GeomObj.mk (.lineString cs) (some "urn:ogc:def:crs:OGC::CRS84") none)
    have henc : encodeV32 (GeomObj.mk (.lineString cs) none none) id =
        .ok (encode_line_string_el NS32 cs
          [("srsName", "urn:ogc:def:crs:OGC::CRS84"), (idAttrKey NS32, id)]) := by
      unfold encodeV32
      dsimp only
      have hsw : maybe_swap_data (.lineString cs) "urn:ogc:def:crs:OGC::CRS84" =
          .ok (.lineString cs) := rfl
      exact (bind_ok hsw _).trans rfl
    refine (bind_ok henc _).trans ?_
    show parse_linestring_v32 (encode_line_string_el NS32 cs
        [("srsName", "urn:ogc:def:crs:OGC::CRS84"), (idAttrKey NS32, id)]) >>=
      engineFinish = _
    have hp : parse_linestring_v32 (encode_line_string_el NS32 cs
        [("srsName", "urn:ogc:def:crs:OGC::CRS84"), (idAttrKey NS32, id)]) =
        .ok (.lineString cs, some "urn:ogc:def:crs:OGC::CRS84") :=
      parse_linestring_v32_print2 h2 hg rfl
    refine (bind_ok hp _).trans ?_
    show engineFinish (.lineString cs, some "urn:ogc:def:crs:OGC::CRS84") = _
    unfold engineFinish
    dsimp only
    rw [if_neg (by decide : ¬(("urn:ogc:def:crs:OGC::CRS84" : String) = ""))]
    have hsw2 : maybe_swap_data (.lineString cs) "urn:ogc:def:crs:OGC::CRS84" =
        .ok (.lineString cs) := rfl
    exact (bind_ok hsw2 _).trans rfl
  · intro c id fuel hg hid0
    have hf : idFalsy (some id) = false := by
      simp only [idFalsy, beq_eq_false_iff_ne, ne_eq]
      exact hid0
    show encodeStd32 (GeomObj.mk (.point c) none none) (some id) >>=
        parseV33F (fuel + 1) =
      .ok (GeomObj.mk (.point c) (some "urn:ogc:def:crs:OGC::CRS84") none)
    have henc : encodeStd32 (GeomObj.mk (.point c) none none) (some id) =
        .ok (encode_point_el NS32 c [("srsName", "urn:ogc:def:crs:OGC::CRS84"),
          (idAttrKey NS32, id)]) := by
      show encodeCommon NS32 true (encode_polygon_std NS32)
        (GeomObj.mk (.point c) none none) (some id) = _
      unfold encodeCommon
      have hcond : ¬ ((idFalsy (some id) && true) = true) := by simp [hf]
      rw [if_neg hcond]
      dsimp only
      have hsw : maybe_swap_data (.point c) "urn:ogc:def:crs:OGC::CRS84" =
          .ok (.point c) := rfl
      refine (bind_ok hsw _).trans ?_
      simp only [hf, Bool.false_eq_true, if_false]
      rfl
    refine (bind_ok henc _).trans ?_
    show parse_point NS32 (encode_point_el NS32 c
        [("srsName", "urn:ogc:def:crs:OGC::CRS84"), (idAttrKey NS32, id)]) >>=
      engineFinish = _
    have hp : parse_point NS32 (encode_point_el NS32 c
        [("srsName", "urn:ogc:def:crs:OGC::CRS84"), (idAttrKey NS32, id)]) =
        .ok (.point c, some "urn:ogc:def:crs:OGC::CRS84") :=
      parse_point_print hg rfl
    refine (bind_ok hp _).trans ?_
    show engineFinish (.point c, some "urn:ogc:def:crs:OGC::CRS84") = _
    unfold engineFinish
    dsimp only
    rw [if_neg (by decide : ¬(("urn:ogc:def:crs:OGC::CRS84" : String) = ""))]
    have hsw2 : maybe_swap_data (.point c) "urn:ogc:def:crs:OGC::CRS84" =
        .ok (.point c) := rfl
    exact (bind_ok hsw2 _).trans rfl
  · intro cs id fuel h2 hg hid0
    have hf : idFalsy (some id) = false := by
      simp only [idFalsy, beq_eq_false_iff_ne, ne_eq]
      exact hid0
    show encodeStd32 (GeomObj.mk (.lineString cs) none none) (some id) >>=
        parseV33F (fuel + 1) =
      .ok (GeomObj.mk (.lineString cs) (some "urn:ogc:def:crs:OGC::CRS84") none)
    have henc : encodeStd32 (GeomObj.mk (.lineString cs) none none) (some id) =
        .ok (encode_line_string_el NS32 cs
          [("srsName", "urn:ogc:def:crs:OGC::CRS84"), (idAttrKey NS32, id)]) := by
      show encodeCommon NS32 true (encode_polygon_std NS32)
        (GeomObj.mk (.lineString cs) none none) (some id) = _
      unfold encodeCommon
      have hcond : ¬ ((idFalsy (some id) && true) = true) := by simp [hf]
      rw [if_neg hcond]
      dsimp only
      have hsw : maybe_swap_data (.lineString cs) "urn:ogc:def:crs:OGC::CRS84" =
          .ok (.lineString cs) := rfl
      refine (bind_ok hsw _).trans ?_
      simp only [hf, Bool.false_eq_true, if_false]
      rfl
    refine (bind_ok henc _).trans ?_
    show parse_linestring_or_linear_ring NS32 (encode_line_string_el NS32 cs
        [("srsName", "urn:ogc:def:crs:OGC::CRS84"), (idAttrKey NS32, id)]) >>=
      engineFinish = _
    have hp : parse_linestring_or_linear_ring NS32 (encode_line_string_el NS32 cs
        [("srsName", "urn:ogc:def:crs:OGC::CRS84"), (idAttrKey NS32, id)]) =
        .ok (.lineString cs, some "urn:ogc:def:crs:OGC::CRS84") :=
      parse_linestring_print2 h2 hg rfl
    refine (bind_ok hp _).trans ?_
    show engineFinish (.lineString cs, some "urn:ogc:def:crs:OGC::CRS84") = _
    unfold engineFinish
    dsimp only
    rw [if_neg (by decide : ¬(("urn:ogc:def:crs:OGC::CRS84" : String) = ""))]
    have hsw2 : maybe_swap_data (.lineString cs) "urn:ogc:def:crs:OGC::CRS84" =
        .ok (.lineString cs) := rfl
    exact (bind_ok hsw2 _).trans rfl
  · intro c id fuel hg hid0
    have hf : idFalsy (some id) = false := by
      simp only [idFalsy, beq_eq_false_iff_ne, ne_eq]
      exact hid0
    show encode_pre_v32 (GeomObj.mk (.point c) none none) id >>=
        parsePre32F (fuel + 1) =
      .ok (GeomObj.mk (.point c) (some "urn:ogc:def:crs:OGC::CRS84") none)
    have henc : encode_pre_v32 (GeomObj.mk (.point c) none none) id =
        .ok (encode_point_el NSPRE32 c
          [("srsName", "urn:ogc:def:crs:OGC::CRS84"), (idAttrKey NSPRE32, id)]) := by
      show encodeCommon NSPRE32 false (encode_polygon_std NSPRE32)
        (GeomObj.mk (.point c) none none) (some id) = _
      unfold encodeCommon
      rw [if_neg (by simp : ¬ ((idFalsy (some id) && false) = true))]
      dsimp only
      have hsw : maybe_swap_data (.point c) "urn:ogc:def:crs:OGC::CRS84" =
          .ok (.point c) := rfl
      refine (bind_ok hsw _).trans ?_
      simp only [hf, Bool.false_eq_true, if_false]
      rfl
    refine (bind_ok henc _).trans ?_
    show parse_point NSPRE32 (encode_point_el NSPRE32 c
        [("srsName", "urn:ogc:def:crs:OGC::CRS84"), (idAttrKey NSPRE32, id)]) >>=
      engineFinish = _
    have hp : parse_point NSPRE32 (encode_point_el NSPRE32 c
        [("srsName", "urn:ogc:def:crs:OGC::CRS84"), (idAttrKey NSPRE32, id)]) =
        .ok (.point c, some "urn:ogc:def:crs:OGC::CRS84") :=
      parse_point_pre32_print hg rfl
    refine (bind_ok hp _).trans ?_
    show engineFinish (.point c, some "urn:ogc:def:crs:OGC::CRS84") = _
    unfold engineFinish
    dsimp only
    rw [if_neg (by decide : ¬(("urn:ogc:def:crs:OGC::CRS84" : String) = ""))]
    have hsw2 : maybe_swap_data (.point c) "urn:ogc:def:crs:OGC::CRS84" =
        .ok (.point c) := rfl
    exact (bind_ok hsw2 _).trans rfl

/-- C1 witness: concrete round trips through the 3.2, 3.3-CE and pre-3.2
pipelines, each returning the geometry with the gained CRS84 member. -/
theorem c1_roundtrip_crs_gained_witness :
    encodeV32 (bare (.point [pn 1, pn 2])) "ID" >>= parseV32F 1 =
      .ok (withCrs84 (.point [pn 1, pn 2])) ∧
    encodeV32 (bare (.lineString [[pn 1, pn 2], [pn 3, pn 4]])) "ID" >>=
      parseV32F 1 = .ok (withCrs84 (.lineString [[pn 1, pn 2], [pn 3, pn 4]])) ∧
    encodeStd32 (bare (.point [pn 1, pn 2])) (some "ID") >>= parseV33F 1 =
      .ok (withCrs84 (.point [pn 1, pn 2])) ∧
    encodeStd32 (bare (.lineString [[pn 1, pn 2], [pn 3, pn 4]])) (some "ID") >>=
      parseV33F 1 = .ok (withCrs84 (.lineString [[pn 1, pn 2], [pn 3, pn 4]])) ∧
    encode_pre_v32 (bare (.point [pn 1, pn 2])) "ID" >>= parsePre32F 1 =
      .ok (withCrs84 (.point [pn 1, pn 2])) :=
  ⟨c1_roundtrip_crs_gained.2.1 [pn 1, pn 2] "ID" 0 (by decide),
   c1_roundtrip_crs_gained.2.2.1 [[pn 1, pn 2], [pn 3, pn 4]] "ID" 0
     (by decide) (by decide),
   c1_roundtrip_crs_gained.2.2.2.1 [pn 1, pn 2] "ID" 0 (by decide) (by decide),
   c1_roundtrip_crs_gained.2.2.2.2.1 [[pn 1, pn 2], [pn 3, pn 4]] "ID" 0
     (by decide) (by decide) (by decide),
   c1_roundtrip_crs_gained.2.2.2.2.2 [pn 1, pn 2] "ID" 0 (by decide) (by decide)⟩
